import Mathlib

/-!
# Verification of the moltbot credential-store and agent-run orchestrator

Shallow embedding of the auth-profile credential store, the profile order
resolver, the external-CLI credential sync, and the orchestrator retry loop
of the moltbot repository (src/unnamed/part_002 = agents/auth-profiles.ts,
src/src/agents/pi-embedded-runner.ts, src/src/agents/pi-embedded-helpers.ts),
together with proofs and refutations of the specification claims.

Conventions of the embedding:
* JavaScript numbers that hold timestamps / counters are modelled as `Int`.
* JavaScript objects used as string-keyed records are modelled as association
  lists `List (String × α)`; key update keeps the position of an existing key
  and appends a new key, as JS property assignment does.
* `undefined` / optional fields are `Option`.
* Effectful sub-computations (file reads, locking, OAuth refresh, API-key
  resolution) are passed in as explicit parameters (oracles), so the
  functions under verification stay pure.
* JS truthiness of an optional string (`if (s)`) is `s ≠ none ∧ s ≠ some ""`.
-/

/-! ## Data model (agents/auth-profiles.ts) -/

/-- `ApiKeyCredential` from auth-profiles.ts. -/
structure ApiKeyCred where
  provider : String
  key : String
  email : Option String
deriving DecidableEq, Repr

/-- `TokenCredential` from auth-profiles.ts: static bearer token, optional expiry. -/
structure TokenCred where
  provider : String
  token : String
  expires : Option Int
  email : Option String
deriving DecidableEq, Repr

/-- `OAuthCredential` from auth-profiles.ts (OAuthCredentials plus tag fields). -/
structure OAuthCred where
  provider : String
  access : String
  refresh : String
  expires : Int
  email : Option String
  enterpriseUrl : Option String
  projectId : Option String
  accountId : Option String
deriving DecidableEq, Repr

/-- `AuthProfileCredential`: tagged union of the three credential shapes. -/
inductive AuthProfileCredential where
  | api_key (c : ApiKeyCred)
  | token (c : TokenCred)
  | oauth (c : OAuthCred)
deriving DecidableEq, Repr

/-- The `provider` field of a credential, uniform over the union. -/
def AuthProfileCredential.provider : AuthProfileCredential → String
  | .api_key c => c.provider
  | .token c => c.provider
  | .oauth c => c.provider

/-- `ProfileUsageStats` from auth-profiles.ts. -/
structure ProfileUsageStats where
  lastUsed : Option Int
  cooldownUntil : Option Int
  errorCount : Option Int
deriving DecidableEq, Repr

/-- The empty usage-stats record (`{}` in the source). -/
def ProfileUsageStats.empty : ProfileUsageStats := ⟨none, none, none⟩

/-- `AuthProfileStore` from auth-profiles.ts. Records become association lists. -/
structure AuthProfileStore where
  version : Int
  profiles : List (String × AuthProfileCredential)
  lastGood : List (String × String)
  usageStats : List (String × ProfileUsageStats)
deriving DecidableEq, Repr

/-- Lookup in a JS-object-as-association-list (`obj[key]`). -/
def lookupEntry {α : Type} (l : List (String × α)) (k : String) : Option α :=
  (l.find? (fun kv => kv.1 == k)).map (fun kv => kv.2)

/-- JS property assignment `obj[key] = v`: replace in place or append. -/
def setEntry {α : Type} : List (String × α) → String → α → List (String × α)
  | [], k, v => [(k, v)]
  | (k1, v1) :: rest, k, v =>
      if k1 = k then (k, v) :: rest else (k1, v1) :: setEntry rest k v

/-- JS truthiness of an optional string value. -/
def isTruthyStr : Option String → Bool
  | none => false
  | some s => s ≠ ""

/-! ## Cooldown backoff (auth-profiles.ts, `calculateAuthProfileCooldownMs`) -/

/-- `calculateAuthProfileCooldownMs(errorCount)` from auth-profiles.ts:
`min(1 hour, 1 minute * 5 ** min(max(1, errorCount) - 1, 3))` in milliseconds. -/
def calculateAuthProfileCooldownMs (errorCount : Int) : Int :=
  let normalized : Int := max 1 errorCount
  min (60 * 60 * 1000) (60 * 1000 * 5 ^ (min (normalized - 1) 3).toNat)

/-! ## Claim C1 -/

theorem calc_cooldown_ge_one (n : Int) (h : 1 ≤ n) :
    calculateAuthProfileCooldownMs n
      = min 3600000 (60000 * 5 ^ (min (n - 1) 3).toNat) := by
  unfold calculateAuthProfileCooldownMs
  rw [max_eq_right h]
  norm_num

theorem calc_cooldown_cases (n : Int) (h : 1 ≤ n) :
    calculateAuthProfileCooldownMs n
      = if n = 1 then 60000 else if n = 2 then 300000 else
        if n = 3 then 1500000 else 3600000 := by
  rcases eq_or_lt_of_le h with h1 | h1
  · subst_vars; simp [calculateAuthProfileCooldownMs]
  rcases eq_or_lt_of_le (by omega : (2 : Int) ≤ n) with h2 | h2
  · rw [← h2]; simp [calculateAuthProfileCooldownMs]
  rcases eq_or_lt_of_le (by omega : (3 : Int) ≤ n) with h3 | h3
  · rw [← h3]; simp [calculateAuthProfileCooldownMs]
  have h4 : (4 : Int) ≤ n := by omega
  have hm : (min (n - 1) 3).toNat = 3 := by omega
  have : calculateAuthProfileCooldownMs n = 3600000 := by
    rw [calc_cooldown_ge_one n h, hm]
    norm_num
  rw [this]
  simp only [if_neg (by omega : ¬ n = 1), if_neg (by omega : ¬ n = 2),
    if_neg (by omega : ¬ n = 3)]

theorem calc_cooldown_le_hour (n : Int) :
    calculateAuthProfileCooldownMs n ≤ 3600000 := by
  unfold calculateAuthProfileCooldownMs
  exact min_le_left _ _

theorem calc_cooldown_mono (n : Int) (h : 1 ≤ n) :
    calculateAuthProfileCooldownMs n ≤ calculateAuthProfileCooldownMs (n + 1) := by
  rw [calc_cooldown_cases n h, calc_cooldown_cases (n + 1) (by omega)]
  rcases eq_or_lt_of_le h with h1 | h1
  · simp [← h1]
  rcases eq_or_lt_of_le (by omega : (2 : Int) ≤ n) with h2 | h2
  · simp [← h2]
  rcases eq_or_lt_of_le (by omega : (3 : Int) ≤ n) with h3 | h3
  · simp [← h3]
  simp only [if_neg (by omega : ¬ n = 1), if_neg (by omega : ¬ n = 2),
    if_neg (by omega : ¬ n = 3), if_neg (by omega : ¬ n + 1 = 1),
    if_neg (by omega : ¬ n + 1 = 2), if_neg (by omega : ¬ n + 1 = 3), le_refl]

/-- C1: for every integer error count n ≥ 1, `calculateAuthProfileCooldownMs n`
equals `min(1 hour, 1 minute * 5^min(n-1,3))` in milliseconds, concretely
60000 / 300000 / 1500000 for n = 1,2,3 and 3600000 for every n ≥ 4; it is
monotone non-decreasing in n and bounded above by 3600000 for all n. -/
theorem C1_cooldown_backoff_schedule :
    (∀ n : Int, 1 ≤ n →
      calculateAuthProfileCooldownMs n
        = min 3600000 (60000 * 5 ^ (min (n - 1) 3).toNat)
      ∧ calculateAuthProfileCooldownMs n ≤ calculateAuthProfileCooldownMs (n + 1))
    ∧ calculateAuthProfileCooldownMs 1 = 60000
    ∧ calculateAuthProfileCooldownMs 2 = 300000
    ∧ calculateAuthProfileCooldownMs 3 = 1500000
    ∧ (∀ n : Int, 4 ≤ n → calculateAuthProfileCooldownMs n = 3600000)
    ∧ (∀ n : Int, calculateAuthProfileCooldownMs n ≤ 3600000) := by
  refine ⟨fun n hn => ⟨calc_cooldown_ge_one n hn, calc_cooldown_mono n hn⟩,
    by decide, by decide, by decide, fun n hn => ?_, calc_cooldown_le_hour⟩
  rw [calc_cooldown_cases n (by omega)]
  simp only [if_neg (by omega : ¬ n = 1), if_neg (by omega : ¬ n = 2),
    if_neg (by omega : ¬ n = 3)]

/-- Witness for C1 at n = 2: the hypotheses are satisfiable and the theorem
evaluates on concrete input. -/
theorem C1_cooldown_backoff_schedule_witness :
    (1 : Int) ≤ 2
    ∧ (calculateAuthProfileCooldownMs 2
        = min 3600000 (60000 * 5 ^ ((min (2 - 1) 3 : Int)).toNat)
      ∧ calculateAuthProfileCooldownMs 2 ≤ calculateAuthProfileCooldownMs (2 + 1))
    ∧ (4 : Int) ≤ 5 ∧ calculateAuthProfileCooldownMs 5 = 3600000 :=
  ⟨by decide, C1_cooldown_backoff_schedule.1 2 (by decide), by decide,
    C1_cooldown_backoff_schedule.2.2.2.2.1 5 (by decide)⟩

/-! ## Profile order resolver (auth-profiles.ts)

`normalizeProviderId` lives in agents/model-selection.ts, which is not part of
the provided sources; all resolver definitions take it as an explicit
parameter `norm` and the claims are proved for every such function. -/

/-- `listProfilesForProvider(store, provider)` from auth-profiles.ts. -/
def listProfilesForProvider (norm : String → String) (store : AuthProfileStore)
    (provider : String) : List String :=
  let providerKey := norm provider
  (store.profiles.filter (fun kv => norm kv.2.provider == providerKey)).map
    (fun kv => kv.1)

/-- `isProfileInCooldown(store, profileId)` from auth-profiles.ts, with the
`Date.now()` read made an explicit `now` parameter. A `cooldownUntil` of `0`
is falsy in JS, hence the extra `c != 0` condition. -/
def isProfileInCooldown (store : AuthProfileStore) (now : Int)
    (profileId : String) : Bool :=
  match (lookupEntry store.usageStats profileId).bind
      (fun s => s.cooldownUntil) with
  | none => false
  | some c => c != 0 && decide (now < c)

/-- The `typeScore` computed in `orderProfilesByMode`:
oauth = 0, token = 1, api_key = 2, missing credential = 3. -/
def typeScoreOf (store : AuthProfileStore) (profileId : String) : Int :=
  match lookupEntry store.profiles profileId with
  | some (.oauth _) => 0
  | some (.token _) => 1
  | some (.api_key _) => 2
  | none => 3

/-- `store.usageStats?.[profileId]?.lastUsed ?? 0` from `orderProfilesByMode`. -/
def lastUsedOf (store : AuthProfileStore) (profileId : String) : Int :=
  ((lookupEntry store.usageStats profileId).bind (fun s => s.lastUsed)).getD 0

/-- `store.usageStats?.[profileId]?.cooldownUntil ?? now` from
`orderProfilesByMode`. -/
def cooldownUntilOrNow (store : AuthProfileStore) (now : Int)
    (profileId : String) : Int :=
  ((lookupEntry store.usageStats profileId).bind
    (fun s => s.cooldownUntil)).getD now

/-- The total preorder realised by the available-profiles comparator in
`orderProfilesByMode` (`a.typeScore - b.typeScore`, then
`a.lastUsed - b.lastUsed`): `availRel a b` iff the comparator returns ≤ 0. -/
def availRel (store : AuthProfileStore) (a b : String) : Prop :=
  typeScoreOf store a < typeScoreOf store b
    ∨ (typeScoreOf store a = typeScoreOf store b
        ∧ lastUsedOf store a ≤ lastUsedOf store b)

instance availRelDecidable (store : AuthProfileStore) :
    DecidableRel (availRel store) := fun a b => by
  unfold availRel; infer_instance

instance availRelTotal (store : AuthProfileStore) :
    IsTotal String (availRel store) := by
  constructor
  intro a b
  unfold availRel
  omega

instance availRelTrans (store : AuthProfileStore) :
    IsTrans String (availRel store) := by
  constructor
  intro a b c hab hbc
  unfold availRel at hab hbc ⊢
  omega

/-- The total preorder realised by the in-cooldown comparator in
`orderProfilesByMode` (`a.cooldownUntil - b.cooldownUntil`). -/
def coolRel (store : AuthProfileStore) (now : Int) (a b : String) : Prop :=
  cooldownUntilOrNow store now a ≤ cooldownUntilOrNow store now b

instance coolRelDecidable (store : AuthProfileStore) (now : Int) :
    DecidableRel (coolRel store now) := fun a b => by
  unfold coolRel; infer_instance

instance coolRelTotal (store : AuthProfileStore) (now : Int) :
    IsTotal String (coolRel store now) := by
  constructor
  intro a b
  unfold coolRel
  omega

instance coolRelTrans (store : AuthProfileStore) (now : Int) :
    IsTrans String (coolRel store now) := by
  constructor
  intro a b c hab hbc
  unfold coolRel at hab hbc ⊢
  omega

/-- `orderProfilesByMode(order, store)` from auth-profiles.ts. The source
partitions the list in one pass (preserving relative order, like the two
filters here), maps each id to a `{profileId, typeScore, lastUsed}` record,
stably sorts the records with the numeric comparators and maps back; since
the record fields are pure functions of the id and the store, this equals a
stable sort of the id list under `availRel` / `coolRel`. -/
def orderProfilesByMode (ord : List String) (store : AuthProfileStore)
    (now : Int) : List String :=
  let available := ord.filter (fun p => !(isProfileInCooldown store now p))
  let inCooldown := ord.filter (fun p => isProfileInCooldown store now p)
  let sorted := List.insertionSort (availRel store) available
  let cooldownSorted := List.insertionSort (coolRel store now) inCooldown
  sorted ++ cooldownSorted

/-- `AuthProfileConfig` (config/types.ts): the per-profile declaration the
resolver consults (`provider` and `mode`). -/
structure AuthProfileConfig where
  provider : String
  mode : String
deriving DecidableEq, Repr

/-- The `auth` section of the config: `profiles` and `order` records. -/
structure AuthConfig where
  profiles : Option (List (String × AuthProfileConfig))
  order : Option (List (String × List String))
deriving DecidableEq, Repr

/-- The slice of `ClawdbotConfig` the resolver reads. -/
structure ClawdbotConfig where
  auth : Option AuthConfig
deriving DecidableEq, Repr

/-- The IIFE computing `configuredOrder` inside `resolveAuthProfileOrder`:
scan `cfg?.auth?.order` for the first key normalising to `providerKey`. -/
def configuredOrderFor (norm : String → String) (cfg : Option ClawdbotConfig)
    (providerKey : String) : Option (List String) :=
  match (cfg.bind (fun c => c.auth)).bind (fun a => a.order) with
  | none => none
  | some order =>
    match order.find? (fun kv => norm kv.1 == providerKey) with
    | some kv => some kv.2
    | none => none

/-- The `explicitProfiles` list inside `resolveAuthProfileOrder`: ids of
config-declared profiles whose provider normalises to `providerKey`. -/
def explicitProfilesFor (norm : String → String) (cfg : Option ClawdbotConfig)
    (providerKey : String) : List String :=
  match (cfg.bind (fun c => c.auth)).bind (fun a => a.profiles) with
  | none => []
  | some profs =>
      (profs.filter (fun kv => norm kv.2.provider == providerKey)).map
        (fun kv => kv.1)

/-- The `filtered` step of `resolveAuthProfileOrder`: drop ids whose stored
credential normalises to a different provider; ids with no stored credential
are kept. -/
def filterByProvider (norm : String → String) (store : AuthProfileStore)
    (providerKey : String) (baseOrder : List String) : List String :=
  baseOrder.filter (fun profileId =>
    match lookupEntry store.profiles profileId with
    | some cred => norm cred.provider == providerKey
    | none => true)

/-- The dedup loop of `resolveAuthProfileOrder`: keep first occurrences. -/
def dedupFirstAux (seen : List String) : List String → List String
  | [] => []
  | x :: rest =>
      if x ∈ seen then dedupFirstAux seen rest
      else x :: dedupFirstAux (x :: seen) rest

/-- `deduped` in `resolveAuthProfileOrder`. -/
def dedupFirst (l : List String) : List String := dedupFirstAux [] l

/-- `[preferredProfile, ...list.filter((e) => e !== preferredProfile)]`. -/
def moveToFront (p : String) (l : List String) : List String :=
  p :: l.filter (fun e => e ≠ p)

/-- `baseOrder` in `resolveAuthProfileOrder`: the configured order if present,
else the config-declared profiles for the provider, else the store profiles
for the provider. -/
def baseCandidates (norm : String → String) (cfg : Option ClawdbotConfig)
    (store : AuthProfileStore) (providerKey : String) : List String :=
  (configuredOrderFor norm cfg providerKey).getD
    (if (explicitProfilesFor norm cfg providerKey).length > 0
     then explicitProfilesFor norm cfg providerKey
     else listProfilesForProvider norm store providerKey)

/-- `deduped` in `resolveAuthProfileOrder`: base candidates filtered by
provider and deduplicated keeping first occurrences. -/
def dedupedCandidates (norm : String → String) (cfg : Option ClawdbotConfig)
    (store : AuthProfileStore) (providerKey : String) : List String :=
  dedupFirst
    (filterByProvider norm store providerKey
      (baseCandidates norm cfg store providerKey))

/-- `resolveAuthProfileOrder(params)` from auth-profiles.ts, with
`normalizeProviderId` as the parameter `norm` and `Date.now()` as `now`. -/
def resolveAuthProfileOrder (norm : String → String)
    (cfg : Option ClawdbotConfig) (store : AuthProfileStore)
    (provider : String) (preferredProfile : Option String) (now : Int) :
    List String :=
  let providerKey := norm provider
  let configuredOrder := configuredOrderFor norm cfg providerKey
  let baseOrder := baseCandidates norm cfg store providerKey
  if baseOrder.length = 0 then []
  else
    let deduped := dedupedCandidates norm cfg store providerKey
    if (configuredOrder.getD []).length > 0 then
      match preferredProfile with
      | some p => if p ≠ "" ∧ p ∈ deduped then moveToFront p deduped else deduped
      | none => deduped
    else
      let sorted := orderProfilesByMode deduped store now
      match preferredProfile with
      | some p => if p ≠ "" ∧ p ∈ sorted then moveToFront p sorted else sorted
      | none => sorted

/-! ## Claims C4, C5, C9: properties of the order resolver -/

theorem orderProfilesByMode_perm (ord : List String) (store : AuthProfileStore)
    (now : Int) : (orderProfilesByMode ord store now).Perm ord := by
  have h1 := List.perm_insertionSort (availRel store)
    (ord.filter (fun p => !(isProfileInCooldown store now p)))
  have h2 := List.perm_insertionSort (coolRel store now)
    (ord.filter (fun p => isProfileInCooldown store now p))
  have h3 := List.filter_append_perm
    (fun p => !(isProfileInCooldown store now p)) ord
  simp only [Bool.not_not] at h3
  exact (h1.append h2).trans h3

theorem orderProfilesByMode_filter_avail (ord : List String)
    (store : AuthProfileStore) (now : Int) :
    (orderProfilesByMode ord store now).filter
        (fun p => !(isProfileInCooldown store now p))
      = List.insertionSort (availRel store)
          (ord.filter (fun p => !(isProfileInCooldown store now p))) := by
  unfold orderProfilesByMode
  rw [List.filter_append]
  have hA : ∀ x ∈ List.insertionSort (availRel store)
      (ord.filter (fun p => !(isProfileInCooldown store now p))),
      (!(isProfileInCooldown store now x)) = true := by
    intro x hx
    have hx2 := (List.perm_insertionSort (availRel store) _).mem_iff.1 hx
    exact (List.mem_filter.1 hx2).2
  have hC : ∀ x ∈ List.insertionSort (coolRel store now)
      (ord.filter (fun p => isProfileInCooldown store now p)),
      ¬ ((!(isProfileInCooldown store now x)) = true) := by
    intro x hx
    have hx2 := (List.perm_insertionSort (coolRel store now) _).mem_iff.1 hx
    have := (List.mem_filter.1 hx2).2
    simp [this]
  rw [List.filter_eq_self.mpr hA, List.filter_eq_nil_iff.mpr hC, List.append_nil]

theorem orderProfilesByMode_filter_cool (ord : List String)
    (store : AuthProfileStore) (now : Int) :
    (orderProfilesByMode ord store now).filter
        (fun p => isProfileInCooldown store now p)
      = List.insertionSort (coolRel store now)
          (ord.filter (fun p => isProfileInCooldown store now p)) := by
  unfold orderProfilesByMode
  rw [List.filter_append]
  have hA : ∀ x ∈ List.insertionSort (availRel store)
      (ord.filter (fun p => !(isProfileInCooldown store now p))),
      ¬ (isProfileInCooldown store now x = true) := by
    intro x hx
    have hx2 := (List.perm_insertionSort (availRel store) _).mem_iff.1 hx
    have := (List.mem_filter.1 hx2).2
    simp at this
    simp [this]
  have hC : ∀ x ∈ List.insertionSort (coolRel store now)
      (ord.filter (fun p => isProfileInCooldown store now p)),
      isProfileInCooldown store now x = true := by
    intro x hx
    have hx2 := (List.perm_insertionSort (coolRel store now) _).mem_iff.1 hx
    exact (List.mem_filter.1 hx2).2
  rw [List.filter_eq_nil_iff.mpr hA, List.filter_eq_self.mpr hC, List.nil_append]

theorem orderProfilesByMode_sorted_avail (ord : List String)
    (store : AuthProfileStore) (now : Int) :
    List.Sorted (availRel store)
      ((orderProfilesByMode ord store now).filter
        (fun p => !(isProfileInCooldown store now p))) := by
  rw [orderProfilesByMode_filter_avail]
  exact List.sorted_insertionSort (availRel store) _

theorem orderProfilesByMode_sorted_cool (ord : List String)
    (store : AuthProfileStore) (now : Int) :
    List.Sorted (coolRel store now)
      ((orderProfilesByMode ord store now).filter
        (fun p => isProfileInCooldown store now p)) := by
  rw [orderProfilesByMode_filter_cool]
  exact List.sorted_insertionSort (coolRel store now) _

theorem append_pred_after {α : Type} (p : α → Bool) (A C : List α)
    (hA : ∀ x ∈ A, ¬ (p x = true)) (hC : ∀ x ∈ C, p x = true) :
    ∀ i j (hi : i < (A ++ C).length) (hj : j < (A ++ C).length), i ≤ j →
      p ((A ++ C).get ⟨i, hi⟩) = true → p ((A ++ C).get ⟨j, hj⟩) = true := by
  intro i j hi hj hij hp
  by_cases hiA : i < A.length
  · exfalso
    have hmem : (A ++ C).get ⟨i, hi⟩ ∈ A := by
      rw [List.get_eq_getElem, List.getElem_append_left hiA]
      exact List.getElem_mem hiA
    exact hA _ hmem hp
  · have hjA : A.length ≤ j := le_trans (Nat.le_of_not_lt hiA) hij
    have hmem : (A ++ C).get ⟨j, hj⟩ ∈ C := by
      rw [List.get_eq_getElem, List.getElem_append_right hjA]
      exact List.getElem_mem _
    exact hC _ hmem

theorem orderProfilesByMode_cooldown_after (ord : List String)
    (store : AuthProfileStore) (now : Int) :
    ∀ i j (hi : i < (orderProfilesByMode ord store now).length)
      (hj : j < (orderProfilesByMode ord store now).length), i ≤ j →
      isProfileInCooldown store now
        ((orderProfilesByMode ord store now).get ⟨i, hi⟩) = true →
      isProfileInCooldown store now
        ((orderProfilesByMode ord store now).get ⟨j, hj⟩) = true := by
  have hA : ∀ x ∈ List.insertionSort (availRel store)
      (ord.filter (fun p => !(isProfileInCooldown store now p))),
      ¬ (isProfileInCooldown store now x = true) := by
    intro x hx
    have hx2 := (List.perm_insertionSort (availRel store) _).mem_iff.1 hx
    have := (List.mem_filter.1 hx2).2
    simp at this
    simp [this]
  have hC : ∀ x ∈ List.insertionSort (coolRel store now)
      (ord.filter (fun p => isProfileInCooldown store now p)),
      isProfileInCooldown store now x = true := by
    intro x hx
    have hx2 := (List.perm_insertionSort (coolRel store now) _).mem_iff.1 hx
    exact (List.mem_filter.1 hx2).2
  exact append_pred_after (fun x => isProfileInCooldown store now x) _ _ hA hC

theorem resolveAuthProfileOrder_no_config_order (norm : String → String)
    (cfg : Option ClawdbotConfig) (store : AuthProfileStore)
    (provider : String) (now : Int)
    (hco : configuredOrderFor norm cfg (norm provider) = none) :
    resolveAuthProfileOrder norm cfg store provider none now
      = orderProfilesByMode (dedupedCandidates norm cfg store (norm provider))
          store now := by
  unfold resolveAuthProfileOrder
  simp only [hco, Option.getD_none]
  by_cases hb : (baseCandidates norm cfg store (norm provider)).length = 0
  · have hbnil : baseCandidates norm cfg store (norm provider) = [] :=
      List.length_eq_zero.mp hb
    have hdnil : dedupedCandidates norm cfg store (norm provider) = [] := by
      unfold dedupedCandidates
      rw [hbnil]
      rfl
    simp only [hb, if_pos, hdnil]
    rfl
  · simp only [hb, if_neg, if_false]
    have : ((none : Option (List String)).getD []).length > 0 ↔ False := by simp
    simp

theorem resolveAuthProfileOrder_config_order (norm : String → String)
    (cfg : Option ClawdbotConfig) (store : AuthProfileStore)
    (provider : String) (preferred : Option String) (now : Int)
    (co : List String)
    (hco : configuredOrderFor norm cfg (norm provider) = some co)
    (hne : co ≠ []) :
    resolveAuthProfileOrder norm cfg store provider preferred now
      = match preferred with
        | some p =>
            if p ≠ "" ∧ p ∈ dedupedCandidates norm cfg store (norm provider)
            then moveToFront p (dedupedCandidates norm cfg store (norm provider))
            else dedupedCandidates norm cfg store (norm provider)
        | none => dedupedCandidates norm cfg store (norm provider) := by
  have hb : baseCandidates norm cfg store (norm provider) = co := by
    unfold baseCandidates
    rw [hco]
    rfl
  have hlen : ¬ ((baseCandidates norm cfg store (norm provider)).length = 0) := by
    rw [hb]
    simpa using hne
  unfold resolveAuthProfileOrder
  simp only [hco, hb, Option.getD_some]
  rw [if_neg (by simpa [hb] using hlen)]
  have hpos : 0 < co.length := by
    cases co with
    | nil => exact absurd rfl hne
    | cons a l => simp
  rw [if_pos hpos]

theorem dedupedCandidates_config_order (norm : String → String)
    (cfg : Option ClawdbotConfig) (store : AuthProfileStore)
    (providerKey : String) (co : List String)
    (hco : configuredOrderFor norm cfg providerKey = some co) :
    dedupedCandidates norm cfg store providerKey
      = dedupFirst (filterByProvider norm store providerKey co) := by
  unfold dedupedCandidates baseCandidates
  rw [hco]
  rfl

/-- Concrete store for C4: profile A is oauth with lastUsed = 100, profile B
is api_key with lastUsed = 50, same provider, no cooldowns. -/
def storeC4 : AuthProfileStore :=
  { version := 1
  , profiles :=
      [("B", .api_key ⟨"prov", "kB", none⟩),
       ("A", .oauth ⟨"prov", "acc", "ref", 999999, none, none, none, none⟩)]
  , lastGood := []
  , usageStats := [("A", ⟨some 100, none, none⟩), ("B", ⟨some 50, none, none⟩)] }

/-- C4: with no explicit config order for the provider (and no preferred
profile), `resolveAuthProfileOrder` returns a permutation of the deduplicated
candidates in which the profiles not in cooldown come first, sorted by
credential-type rank (oauth = 0, token = 1, api_key = 2) then by `lastUsed`
ascending, followed by the in-cooldown profiles sorted by `cooldownUntil`
ascending; an in-cooldown profile never precedes a profile with no active
cooldown, and concretely an oauth profile with lastUsed = 100 precedes an
api_key profile with lastUsed = 50. -/
theorem C4_round_robin_cooldown_order :
    (∀ (norm : String → String) (cfg : Option ClawdbotConfig)
       (store : AuthProfileStore) (provider : String) (now : Int),
      configuredOrderFor norm cfg (norm provider) = none →
      ((resolveAuthProfileOrder norm cfg store provider none now).Perm
          (dedupedCandidates norm cfg store (norm provider))
        ∧ List.Sorted (availRel store)
            ((resolveAuthProfileOrder norm cfg store provider none now).filter
              (fun p => !(isProfileInCooldown store now p)))
        ∧ List.Sorted (coolRel store now)
            ((resolveAuthProfileOrder norm cfg store provider none now).filter
              (fun p => isProfileInCooldown store now p))
        ∧ ∀ i j
            (hi : i < (resolveAuthProfileOrder norm cfg store provider none now).length)
            (hj : j < (resolveAuthProfileOrder norm cfg store provider none now).length),
            i ≤ j →
            isProfileInCooldown store now
              ((resolveAuthProfileOrder norm cfg store provider none now).get ⟨i, hi⟩) = true →
            isProfileInCooldown store now
              ((resolveAuthProfileOrder norm cfg store provider none now).get ⟨j, hj⟩) = true))
    ∧ resolveAuthProfileOrder (fun s => s) none storeC4 "prov" none 1000
        = ["A", "B"] := by
  constructor
  · intro norm cfg store provider now hco
    rw [resolveAuthProfileOrder_no_config_order norm cfg store provider now hco]
    exact ⟨orderProfilesByMode_perm _ _ _,
      orderProfilesByMode_sorted_avail _ _ _,
      orderProfilesByMode_sorted_cool _ _ _,
      orderProfilesByMode_cooldown_after _ _ _⟩
  · decide

/-- Witness for C4: the no-config-order hypothesis holds at a concrete store
and the conclusions evaluate there. -/
theorem C4_round_robin_cooldown_order_witness :
    configuredOrderFor (fun s => s) none "prov" = none
    ∧ (resolveAuthProfileOrder (fun s => s) none storeC4 "prov" none 1000).Perm
        (dedupedCandidates (fun s => s) none storeC4 "prov")
    ∧ List.Sorted (availRel storeC4)
        ((resolveAuthProfileOrder (fun s => s) none storeC4 "prov" none 1000).filter
          (fun p => !(isProfileInCooldown storeC4 1000 p)))
    ∧ List.Sorted (coolRel storeC4 1000)
        ((resolveAuthProfileOrder (fun s => s) none storeC4 "prov" none 1000).filter
          (fun p => isProfileInCooldown storeC4 1000 p)) :=
  have h := C4_round_robin_cooldown_order.1 (fun s => s) none storeC4 "prov" 1000 rfl
  ⟨rfl, h.1, h.2.1, h.2.2.1⟩

/-- Counterexample input for C5: the config declares explicit order
`["p1"]` for provider "anthropic", but the store holds "p1" with provider
"openai"; the resolver drops it and returns `[]`, not the configured order. -/
def storeC5 : AuthProfileStore :=
  { version := 1
  , profiles := [("p1", .api_key ⟨"openai", "k", none⟩)]
  , lastGood := []
  , usageStats := [] }

/-- Config for the C5 counterexample. -/
def cfgC5 : ClawdbotConfig :=
  ⟨some ⟨none, some [("anthropic", ["p1"])]⟩⟩

/-- C5 counterexample: with a non-empty configured order `["p1"]` for the
provider, the resolver returns `[]` rather than the deduplicated configured
order `["p1"]`, because the stored credential of "p1" names a different
provider and is filtered out. -/
theorem C5_counterexample_config_order_filtered :
    configuredOrderFor (fun s => s) (some cfgC5) "anthropic" = some ["p1"]
    ∧ dedupFirst ["p1"] = ["p1"]
    ∧ resolveAuthProfileOrder (fun s => s) (some cfgC5) storeC5 "anthropic"
        none 0 = []
    ∧ ([] : List String) ≠ ["p1"] := by
  refine ⟨rfl, rfl, ?_, by decide⟩
  decide

/-- C5 (amended): when the config declares a non-empty explicit profile order
for the provider, the resolver returns exactly that order with duplicates
removed and with entries dropped whose stored credential belongs to a
different provider (entries with no stored credential are kept), ignoring
cooldown and lastUsed; a preferredProfile that is a member of that list is
moved to the front, and one that is not a member is not inserted. -/
theorem C5_explicit_config_order (norm : String → String)
    (cfg : Option ClawdbotConfig) (store : AuthProfileStore)
    (provider : String) (preferred : Option String) (now : Int)
    (co : List String)
    (hco : configuredOrderFor norm cfg (norm provider) = some co)
    (hne : co ≠ []) :
    (∀ p, preferred = some p → p ≠ "" →
      p ∈ dedupFirst (filterByProvider norm store (norm provider) co) →
      resolveAuthProfileOrder norm cfg store provider preferred now
        = moveToFront p (dedupFirst (filterByProvider norm store (norm provider) co)))
    ∧ ((∀ p, preferred = some p →
          p = "" ∨ p ∉ dedupFirst (filterByProvider norm store (norm provider) co)) →
        resolveAuthProfileOrder norm cfg store provider preferred now
          = dedupFirst (filterByProvider norm store (norm provider) co))
    ∧ (∀ p, preferred = some p →
        p ∉ dedupFirst (filterByProvider norm store (norm provider) co) →
        p ∉ resolveAuthProfileOrder norm cfg store provider preferred now) := by
  have hd := dedupedCandidates_config_order norm cfg store (norm provider) co hco
  have hr := resolveAuthProfileOrder_config_order norm cfg store provider
    preferred now co hco hne
  rw [hd] at hr
  refine ⟨?_, ?_, ?_⟩
  · intro p hp hne2 hmem
    subst hp
    rw [hr]
    simp [hne2, hmem]
  · intro hnot
    rw [hr]
    cases hpc : preferred with
    | none => rfl
    | some p =>
      rcases hnot p hpc with h | h
      · simp [h]
      · simp [h]
  · intro p hp hmem
    subst hp
    rw [hr]
    simp [hmem]

/-- Witness for C5 (amended): evaluate at a concrete configured order where
the preferred profile is a member and moves to the front. -/
theorem C5_explicit_config_order_witness :
    configuredOrderFor (fun s => s) (some ⟨some ⟨none, some [("prov", ["B", "A"])]⟩⟩) "prov"
      = some ["B", "A"]
    ∧ (["B", "A"] : List String) ≠ []
    ∧ resolveAuthProfileOrder (fun s => s)
        (some ⟨some ⟨none, some [("prov", ["B", "A"])]⟩⟩) storeC4 "prov"
        (some "A") 1000
      = moveToFront "A" (dedupFirst (filterByProvider (fun s => s) storeC4 "prov" ["B", "A"])) :=
  have h := C5_explicit_config_order (fun s => s)
    (some ⟨some ⟨none, some [("prov", ["B", "A"])]⟩⟩) storeC4 "prov"
    (some "A") 1000 ["B", "A"] rfl (by decide)
  ⟨rfl, by decide, h.1 "A" rfl (by decide) (by decide)⟩

/-- C9: `resolveAuthProfileOrder` is a pure function of its arguments
(store, config, provider, preferred profile, clock reading): two invocations
on identical inputs return identical lists. -/
theorem C9_resolve_order_deterministic (norm : String → String)
    (cfg : Option ClawdbotConfig) (store : AuthProfileStore)
    (provider : String) (preferred : Option String) (now : Int) :
    resolveAuthProfileOrder norm cfg store provider preferred now
      = resolveAuthProfileOrder norm cfg store provider preferred now := rfl

/-! ## External CLI credential sync (auth-profiles.ts) — Claim C8

`readClaudeCliCredentials` / `readCodexCliCredentials` do file and keychain
I/O; their results are passed in as the parameters `claudeCreds` /
`codexCreds`, and `Date.now()` as `now`. -/

/-- `CLAUDE_CLI_PROFILE_ID` from auth-profiles.ts. -/
def CLAUDE_CLI_PROFILE_ID : String := "anthropic:claude-cli"

/-- `CODEX_CLI_PROFILE_ID` from auth-profiles.ts. -/
def CODEX_CLI_PROFILE_ID : String := "openai-codex:codex-cli"

/-- `shallowEqualTokenCredentials(a, b)`; `a` is already narrowed to a token
credential or `undefined` at the call site, so the `a.type !== "token"` check
of the source is vacuous here. -/
def shallowEqualTokenCredentials (a : Option TokenCred) (b : TokenCred) :
    Bool :=
  match a with
  | none => false
  | some a =>
      a.provider == b.provider && a.token == b.token
        && a.expires == b.expires && a.email == b.email

/-- `shallowEqualOAuthCredentials(a, b)`; same narrowing note as above. -/
def shallowEqualOAuthCredentials (a : Option OAuthCred) (b : OAuthCred) :
    Bool :=
  match a with
  | none => false
  | some a =>
      a.provider == b.provider && a.access == b.access
        && a.refresh == b.refresh && a.expires == b.expires
        && a.email == b.email && a.enterpriseUrl == b.enterpriseUrl
        && a.projectId == b.projectId && a.accountId == b.accountId

/-- The Claude CLI section of `syncExternalCliCredentials`: update the
reserved profile when there is no stored token, the stored token is for
another provider or expired, or the CLI token is valid and newer. -/
def syncClaudeSection (store : AuthProfileStore)
    (claudeCreds : Option TokenCred) (now : Int) : AuthProfileStore × Bool :=
  match claudeCreds with
  | none => (store, false)
  | some c =>
    let existingToken : Option TokenCred :=
      match lookupEntry store.profiles CLAUDE_CLI_PROFILE_ID with
      | some (.token t) => some t
      | _ => none
    let shouldUpdate : Bool :=
      match existingToken with
      | none => true
      | some t =>
          t.provider != "anthropic"
            || decide (t.expires.getD 0 ≤ now)
            || (decide (now < c.expires.getD 0)
                && decide (t.expires.getD 0 < c.expires.getD 0))
    if shouldUpdate && !(shallowEqualTokenCredentials existingToken c) then
      ({ store with
          profiles := setEntry store.profiles CLAUDE_CLI_PROFILE_ID (.token c) },
        true)
    else (store, false)

/-- The Codex CLI section of `syncExternalCliCredentials`. -/
def syncCodexSection (store : AuthProfileStore)
    (codexCreds : Option OAuthCred) (now : Int) : AuthProfileStore × Bool :=
  match codexCreds with
  | none => (store, false)
  | some cx =>
    let existingOAuth : Option OAuthCred :=
      match lookupEntry store.profiles CODEX_CLI_PROFILE_ID with
      | some (.oauth o) => some o
      | _ => none
    let shouldUpdate : Bool :=
      match existingOAuth with
      | none => true
      | some o =>
          o.provider != "openai-codex"
            || decide (o.expires ≤ now)
            || decide (o.expires < cx.expires)
    if shouldUpdate && !(shallowEqualOAuthCredentials existingOAuth cx) then
      ({ store with
          profiles := setEntry store.profiles CODEX_CLI_PROFILE_ID (.oauth cx) },
        true)
    else (store, false)

/-- `syncExternalCliCredentials(store)` from auth-profiles.ts: run the Claude
section, then the Codex section, reporting whether either mutated. -/
def syncExternalCliCredentials (store : AuthProfileStore)
    (claudeCreds : Option TokenCred) (codexCreds : Option OAuthCred)
    (now : Int) : AuthProfileStore × Bool :=
  let r1 := syncClaudeSection store claudeCreds now
  let r2 := syncCodexSection r1.1 codexCreds now
  (r2.1, r1.2 || r2.2)

theorem lookup_setEntry_ne {α : Type} (l : List (String × α)) (k1 k2 : String)
    (v : α) (h : k1 ≠ k2) :
    lookupEntry (setEntry l k2 v) k1 = lookupEntry l k1 := by
  induction l with
  | nil =>
    simp only [setEntry, lookupEntry, List.find?]
    have : (k2 == k1) = false := by
      simp only [beq_eq_false_iff_ne]
      exact fun hc => h hc.symm
    simp [this]
  | cons kv rest ih =>
    obtain ⟨ka, va⟩ := kv
    by_cases hk : ka = k2
    · subst hk
      simp only [setEntry, if_pos rfl]
      have : (ka == k1) = false := by
        simp only [beq_eq_false_iff_ne]
        exact fun hc => h hc.symm
      simp [lookupEntry, List.find?, this]
    · simp only [setEntry, if_neg hk]
      by_cases hk1 : ka = k1
      · subst hk1
        simp [lookupEntry, List.find?]
      · have : (ka == k1) = false := by simp [hk1]
        simp only [lookupEntry, List.find?, this]
        exact ih

/-- The stored oauth credential of the C8 counterexample (expires 2000). -/
def oauthC8 : OAuthCred := ⟨"anthropic", "acc", "ref", 2000, none, none, none, none⟩

/-- Store for the C8 counterexample: the reserved Claude CLI profile id holds
an oauth credential with a later expiry than the external token. -/
def storeC8 : AuthProfileStore :=
  { version := 1
  , profiles := [("anthropic:claude-cli", .oauth oauthC8)]
  , lastGood := []
  , usageStats := [] }

/-- External Claude CLI token of the C8 counterexample (expires 1000). -/
def claudeC8 : TokenCred := ⟨"anthropic", "cli-token", some 1000, none⟩

/-- C8 counterexample: at now = 100 the store holds an unexpired oauth
credential (expiry 2000) at the reserved Claude CLI profile id, the external
CLI token expires earlier (1000), yet the sync overwrites the stored oauth
credential with the weaker token credential — violating both the
later-expiry protection and the no-downgrade protection of the claim. -/
theorem C8_counterexample_oauth_downgraded :
    (1000 : Int) < 2000 ∧ (100 : Int) < 2000
    ∧ lookupEntry storeC8.profiles CLAUDE_CLI_PROFILE_ID
        = some (.oauth oauthC8)
    ∧ (syncExternalCliCredentials storeC8 (some claudeC8) none 100).2 = true
    ∧ lookupEntry
        (syncExternalCliCredentials storeC8 (some claudeC8) none 100).1.profiles
        CLAUDE_CLI_PROFILE_ID
      = some (.token claudeC8) := by
  refine ⟨by decide, by decide, by decide, by decide, by decide⟩

theorem syncClaudeSection_no_update (store : AuthProfileStore)
    (claudeCreds : Option TokenCred) (now : Int) (t : TokenCred)
    (hstored : lookupEntry store.profiles CLAUDE_CLI_PROFILE_ID
      = some (.token t))
    (hprov : t.provider = "anthropic")
    (hfresh : now < t.expires.getD 0)
    (hlater : ∀ c, claudeCreds = some c → c.expires.getD 0 ≤ t.expires.getD 0) :
    syncClaudeSection store claudeCreds now = (store, false) := by
  cases claudeCreds with
  | none => rfl
  | some c =>
    have hc := hlater c rfl
    unfold syncClaudeSection
    simp only [hstored]
    have hsu : (t.provider != "anthropic"
        || decide (t.expires.getD 0 ≤ now)
        || (decide (now < c.expires.getD 0)
            && decide (t.expires.getD 0 < c.expires.getD 0))) = false := by
      rw [hprov]
      simp only [bne_self_eq_false, Bool.false_or, Bool.or_eq_false_iff,
        Bool.and_eq_false_iff]
      constructor
      · simpa using (by omega : ¬ (t.expires.getD 0 ≤ now))
      · right
        simpa using (by omega : ¬ (t.expires.getD 0 < c.expires.getD 0))
    rw [hsu]
    simp

theorem syncCodexSection_no_update (store : AuthProfileStore)
    (codexCreds : Option OAuthCred) (now : Int) (o : OAuthCred)
    (hstored : lookupEntry store.profiles CODEX_CLI_PROFILE_ID
      = some (.oauth o))
    (hprov : o.provider = "openai-codex")
    (hfresh : now < o.expires)
    (hlater : ∀ cx, codexCreds = some cx → cx.expires ≤ o.expires) :
    syncCodexSection store codexCreds now = (store, false) := by
  cases codexCreds with
  | none => rfl
  | some cx =>
    have hc := hlater cx rfl
    unfold syncCodexSection
    simp only [hstored]
    have hsu : (o.provider != "openai-codex"
        || decide (o.expires ≤ now)
        || decide (o.expires < cx.expires)) = false := by
      rw [hprov]
      simp only [bne_self_eq_false, Bool.false_or, Bool.or_eq_false_iff]
      constructor
      · simpa using (by omega : ¬ (o.expires ≤ now))
      · simpa using (by omega : ¬ (o.expires < cx.expires))
    rw [hsu]
    simp

theorem syncCodexSection_preserves_claude (store : AuthProfileStore)
    (codexCreds : Option OAuthCred) (now : Int) :
    lookupEntry (syncCodexSection store codexCreds now).1.profiles
        CLAUDE_CLI_PROFILE_ID
      = lookupEntry store.profiles CLAUDE_CLI_PROFILE_ID := by
  cases codexCreds with
  | none => rfl
  | some cx =>
    unfold syncCodexSection
    dsimp only
    split
    · exact lookup_setEntry_ne _ _ _ _ (by decide)
    · rfl

theorem syncClaudeSection_preserves_codex (store : AuthProfileStore)
    (claudeCreds : Option TokenCred) (now : Int) :
    lookupEntry (syncClaudeSection store claudeCreds now).1.profiles
        CODEX_CLI_PROFILE_ID
      = lookupEntry store.profiles CODEX_CLI_PROFILE_ID := by
  cases claudeCreds with
  | none => rfl
  | some c =>
    unfold syncClaudeSection
    dsimp only
    split
    · exact lookup_setEntry_ne _ _ _ _ (by decide)
    · rfl

/-- C8 (amended): the sync never overwrites a stored credential of the same
type as the external tool's credential when the stored one is unexpired and
its expiry is at least the external one's: an unexpired stored anthropic
token with expiry ≥ the Claude CLI token's expiry is kept, and an unexpired
stored openai-codex oauth credential with expiry ≥ the Codex CLI
credential's expiry is kept. (A stored credential of a different type at the
reserved id — e.g. an oauth credential at the Claude CLI id — is replaced,
as is an expired stored credential; see the counterexample.) -/
theorem C8_no_overwrite_fresher_same_type (store : AuthProfileStore)
    (claudeCreds : Option TokenCred) (codexCreds : Option OAuthCred)
    (now : Int) :
    (∀ t, lookupEntry store.profiles CLAUDE_CLI_PROFILE_ID = some (.token t) →
      t.provider = "anthropic" → now < t.expires.getD 0 →
      (∀ c, claudeCreds = some c → c.expires.getD 0 ≤ t.expires.getD 0) →
      lookupEntry
          (syncExternalCliCredentials store claudeCreds codexCreds now).1.profiles
          CLAUDE_CLI_PROFILE_ID
        = some (.token t))
    ∧ (∀ o, lookupEntry store.profiles CODEX_CLI_PROFILE_ID = some (.oauth o) →
      o.provider = "openai-codex" → now < o.expires →
      (∀ cx, codexCreds = some cx → cx.expires ≤ o.expires) →
      lookupEntry
          (syncExternalCliCredentials store claudeCreds codexCreds now).1.profiles
          CODEX_CLI_PROFILE_ID
        = some (.oauth o)) := by
  constructor
  · intro t hstored hprov hfresh hlater
    unfold syncExternalCliCredentials
    dsimp only
    rw [syncClaudeSection_no_update store claudeCreds now t hstored hprov
      hfresh hlater]
    rw [syncCodexSection_preserves_claude]
    exact hstored
  · intro o hstored hprov hfresh hlater
    unfold syncExternalCliCredentials
    dsimp only
    have hstored1 : lookupEntry (syncClaudeSection store claudeCreds now).1.profiles
        CODEX_CLI_PROFILE_ID = some (.oauth o) := by
      rw [syncClaudeSection_preserves_codex]
      exact hstored
    rw [syncCodexSection_no_update _ codexCreds now o hstored1 hprov hfresh
      hlater]
    exact hstored1

/-- Witness for the amended C8: a stored unexpired anthropic token with
expiry 2000 survives a sync offering an external token with expiry 1000. -/
theorem C8_no_overwrite_fresher_same_type_witness :
    lookupEntry
        (syncExternalCliCredentials
          { version := 1
          , profiles := [("anthropic:claude-cli",
              .token ⟨"anthropic", "stored", some 2000, none⟩)]
          , lastGood := []
          , usageStats := [] }
          (some ⟨"anthropic", "cli-token", some 1000, none⟩) none 100).1.profiles
        CLAUDE_CLI_PROFILE_ID
      = some (.token ⟨"anthropic", "stored", some 2000, none⟩) :=
  (C8_no_overwrite_fresher_same_type _ _ none 100).1
    ⟨"anthropic", "stored", some 2000, none⟩ (by decide) rfl (by decide)
    (fun c hc => by
      cases hc
      decide)

/-! ## API-key resolution for a profile (auth-profiles.ts) — Claim C10 -/

/-- The `{apiKey, provider, email?}` result of `resolveApiKeyForProfile`. -/
structure ResolvedApiKey where
  apiKey : String
  provider : String
  email : Option String
deriving DecidableEq, Repr

/-- The `type` tag of a credential as the string the config `mode` is
compared against. -/
def credTypeName : AuthProfileCredential → String
  | .api_key _ => "api_key"
  | .token _ => "token"
  | .oauth _ => "oauth"

/-- `cfg?.auth?.profiles?.[profileId]` as read by `resolveApiKeyForProfile`. -/
def profileConfigFor (cfg : Option ClawdbotConfig) (profileId : String) :
    Option AuthProfileConfig :=
  ((cfg.bind (fun c => c.auth)).bind (fun a => a.profiles)).bind
    (fun ps => lookupEntry ps profileId)

/-- `buildOAuthApiKey(provider, credentials)` from auth-profiles.ts; the
profileId-bearing JSON envelope is produced for the two Google providers. -/
def buildOAuthApiKey (provider : String) (credentials : OAuthCred) : String :=
  let needsProjectId :=
    provider == "google-gemini-cli" || provider == "google-antigravity"
  if needsProjectId then
    "\x7b\"token\":\"" ++ credentials.access ++ "\",\"projectId\":\""
      ++ (credentials.projectId.getD "") ++ "\"\x7d"
  else credentials.access

/-- The `cred.type === "token"` branch of `resolveApiKeyForProfile`: trim the
token, reject an empty token, reject a positive finite expiry that has
passed. -/
def resolveTokenCredential (t : TokenCred) (now : Int) :
    Option ResolvedApiKey :=
  let token := t.token.trim
  if token == "" then none
  else
    match t.expires with
    | some e => if 0 < e ∧ e ≤ now then none
        else some ⟨token, t.provider, t.email⟩
    | none => some ⟨token, t.provider, t.email⟩

/-- `resolveApiKeyForProfile(params)` from auth-profiles.ts. The tail of the
expired-oauth branch (locked refresh, re-read of the store, legacy-default
fallback) performs I/O; its result is passed in as `refreshResult`. -/
def resolveApiKeyForProfile (cfg : Option ClawdbotConfig)
    (store : AuthProfileStore) (profileId : String) (now : Int)
    (refreshResult : Option ResolvedApiKey) : Option ResolvedApiKey :=
  match lookupEntry store.profiles profileId with
  | none => none
  | some cred =>
    match profileConfigFor cfg profileId with
    | some pc =>
      if pc.provider ≠ cred.provider then none
      else if pc.mode ≠ credTypeName cred
          ∧ ¬(pc.mode = "oauth" ∧ credTypeName cred = "token") then none
      else resolveCredentialBody cred now refreshResult
    | none => resolveCredentialBody cred now refreshResult
where
  /-- The per-type body after the config guards. -/
  resolveCredentialBody (cred : AuthProfileCredential) (now : Int)
      (refreshResult : Option ResolvedApiKey) : Option ResolvedApiKey :=
    match cred with
    | .api_key a => some ⟨a.key, a.provider, a.email⟩
    | .token t => resolveTokenCredential t now
    | .oauth o =>
        if now < o.expires then
          some ⟨buildOAuthApiKey o.provider o, o.provider, o.email⟩
        else refreshResult

/-- C10: whenever the config declares the profile with a provider different
from the stored credential's provider, or with a mode different from the
stored credential's type, `resolveApiKeyForProfile` returns null rather than
raising — with exactly one exception: a config mode of "oauth" is accepted
for a stored credential of type "token", and resolution then proceeds
normally through the token branch. -/
theorem C10_config_mismatch_returns_null :
    (∀ (cfg : Option ClawdbotConfig) (store : AuthProfileStore)
       (profileId : String) (now : Int)
       (refreshResult : Option ResolvedApiKey)
       (cred : AuthProfileCredential) (pc : AuthProfileConfig),
      lookupEntry store.profiles profileId = some cred →
      profileConfigFor cfg profileId = some pc →
      pc.provider ≠ cred.provider →
      resolveApiKeyForProfile cfg store profileId now refreshResult = none)
    ∧ (∀ (cfg : Option ClawdbotConfig) (store : AuthProfileStore)
       (profileId : String) (now : Int)
       (refreshResult : Option ResolvedApiKey)
       (cred : AuthProfileCredential) (pc : AuthProfileConfig),
      lookupEntry store.profiles profileId = some cred →
      profileConfigFor cfg profileId = some pc →
      pc.mode ≠ credTypeName cred →
      ¬(pc.mode = "oauth" ∧ credTypeName cred = "token") →
      resolveApiKeyForProfile cfg store profileId now refreshResult = none)
    ∧ (∀ (cfg : Option ClawdbotConfig) (store : AuthProfileStore)
       (profileId : String) (now : Int)
       (refreshResult : Option ResolvedApiKey)
       (t : TokenCred) (pc : AuthProfileConfig),
      lookupEntry store.profiles profileId = some (.token t) →
      profileConfigFor cfg profileId = some pc →
      pc.provider = t.provider →
      pc.mode = "oauth" →
      resolveApiKeyForProfile cfg store profileId now refreshResult
        = resolveTokenCredential t now) := by
  refine ⟨?_, ?_, ?_⟩
  · intro cfg store profileId now refreshResult cred pc hcred hpc hne
    unfold resolveApiKeyForProfile
    rw [hcred, hpc]
    simp [hne]
  · intro cfg store profileId now refreshResult cred pc hcred hpc hmode hexc
    unfold resolveApiKeyForProfile
    rw [hcred, hpc]
    by_cases hprov : pc.provider = cred.provider
    · simp [hprov, hmode, hexc]
    · simp [hprov]
  · intro cfg store profileId now refreshResult t pc hcred hpc hprov hmode
    unfold resolveApiKeyForProfile
    rw [hcred, hpc]
    have h1 : ¬ (pc.provider ≠ (AuthProfileCredential.token t).provider) := by
      simp [AuthProfileCredential.provider, hprov]
    have h2 : ¬ (pc.mode ≠ credTypeName (.token t)
        ∧ ¬(pc.mode = "oauth" ∧ credTypeName (.token t) = "token")) := by
      simp [credTypeName, hmode]
    dsimp only
    rw [if_neg h1, if_neg h2]
    rfl

/-- Witness for C10: all three parts evaluate on concrete stores/configs. -/
theorem C10_config_mismatch_returns_null_witness :
    resolveApiKeyForProfile
        (some ⟨some ⟨some [("p", ⟨"openai", "api_key"⟩)], none⟩⟩)
        ⟨1, [("p", .api_key ⟨"anthropic", "k", none⟩)], [], []⟩ "p" 0 none
      = none
    ∧ resolveApiKeyForProfile
        (some ⟨some ⟨some [("p", ⟨"anthropic", "oauth"⟩)], none⟩⟩)
        ⟨1, [("p", .api_key ⟨"anthropic", "k", none⟩)], [], []⟩ "p" 0 none
      = none
    ∧ resolveApiKeyForProfile
        (some ⟨some ⟨some [("p", ⟨"anthropic", "oauth"⟩)], none⟩⟩)
        ⟨1, [("p", .token ⟨"anthropic", "tok", some 50, none⟩)], [], []⟩ "p" 10 none
      = resolveTokenCredential ⟨"anthropic", "tok", some 50, none⟩ 10 :=
  ⟨C10_config_mismatch_returns_null.1
      (some ⟨some ⟨some [("p", ⟨"openai", "api_key"⟩)], none⟩⟩)
      ⟨1, [("p", .api_key ⟨"anthropic", "k", none⟩)], [], []⟩ "p" 0 none
      (.api_key ⟨"anthropic", "k", none⟩) ⟨"openai", "api_key"⟩
      (by decide) (by decide) (by decide),
    C10_config_mismatch_returns_null.2.1
      (some ⟨some ⟨some [("p", ⟨"anthropic", "oauth"⟩)], none⟩⟩)
      ⟨1, [("p", .api_key ⟨"anthropic", "k", none⟩)], [], []⟩ "p" 0 none
      (.api_key ⟨"anthropic", "k", none⟩) ⟨"anthropic", "oauth"⟩
      (by decide) (by decide) (by decide) (by decide),
    C10_config_mismatch_returns_null.2.2
      (some ⟨some ⟨some [("p", ⟨"anthropic", "oauth"⟩)], none⟩⟩)
      ⟨1, [("p", .token ⟨"anthropic", "tok", some 50, none⟩)], [], []⟩ "p" 10 none
      ⟨"anthropic", "tok", some 50, none⟩ ⟨"anthropic", "oauth"⟩
      (by decide) (by decide) (by decide) (by decide)⟩

/-! ## Error classification (pi-embedded-helpers.ts) -/

/-- Does `pat` start the character list `s`? -/
def charsStartWith : List Char → List Char → Bool
  | [], _ => true
  | _ :: _, [] => false
  | p :: ps, c :: cs => p == c && charsStartWith ps cs

/-- Does `pat` occur as a contiguous sublist? -/
def charsHasSub (pat : List Char) : List Char → Bool
  | [] => pat.isEmpty
  | c :: cs => charsStartWith pat (c :: cs) || charsHasSub pat cs

/-- JS `String.prototype.includes`. -/
def strIncludes (s pat : String) : Bool := charsHasSub pat.data s.data

/-- JS `String.prototype.toLowerCase` (character-wise, which covers the ASCII
patterns the classifiers test). -/
def jsToLower (s : String) : String := String.mk (s.data.map Char.toLower)

/-- JS `String.prototype.trim`: strip leading and trailing whitespace. -/
def jsTrim (s : String) : String :=
  String.mk
    (((s.data.dropWhile Char.isWhitespace).reverse.dropWhile
      Char.isWhitespace).reverse)

/-- `isContextOverflowError(errorMessage)` from pi-embedded-helpers.ts.
An empty string is falsy in JS, hence the emptiness check. -/
def isContextOverflowError (errorMessage : Option String) : Bool :=
  match errorMessage with
  | none => false
  | some m =>
    if m == "" then false
    else
      let lower := jsToLower m
      strIncludes lower "request_too_large"
        || strIncludes lower "request exceeds the maximum size"
        || strIncludes lower "context length exceeded"
        || strIncludes lower "maximum context length"
        || (strIncludes lower "413" && strIncludes lower "too large")

/-- `isRateLimitErrorMessage(raw)` from pi-embedded-helpers.ts: the regex
`rate[_ ]limit|too many requests|429` flattened into substring tests, plus
the quota phrase. -/
def isRateLimitErrorMessage (raw : String) : Bool :=
  let value := jsToLower raw
  strIncludes value "rate_limit" || strIncludes value "rate limit"
    || strIncludes value "too many requests" || strIncludes value "429"
    || strIncludes value "exceeded your current quota"

/-- A regex word character (`\w`): alphanumeric or underscore. -/
def isWordChar (c : Char) : Bool := c.isAlphanum || c == '_'

/-- Scan for an occurrence of `pat` delimited by word boundaries (`\bpat\b`);
`prev` is the character before the current position, `none` at the start. -/
def hasBoundedSubAux (pat : List Char) : Option Char → List Char → Bool
  | prev, [] =>
      pat.isEmpty
        && (match prev with | none => true | some p => !(isWordChar p))
  | prev, c :: cs =>
      (charsStartWith pat (c :: cs)
        && (match prev with | none => true | some p => !(isWordChar p))
        && (match (c :: cs).drop pat.length with
            | [] => true
            | d :: _ => !(isWordChar d)))
      || hasBoundedSubAux pat (some c) cs

/-- The regex test `\bpat\b` on `s`. -/
def hasWordBoundedSub (s pat : String) : Bool :=
  hasBoundedSubAux pat.data none s.data

/-- `isAuthErrorMessage(raw)` from pi-embedded-helpers.ts. The regex
`invalid[_ ]?api[_ ]?key` is flattened into its nine literal instantiations;
`\b401\b` and `\b403\b` use the word-boundary scan. -/
def isAuthErrorMessage (raw : String) : Bool :=
  let value := jsToLower raw
  if value == "" then false
  else
    strIncludes value "invalidapikey" || strIncludes value "invalid_apikey"
      || strIncludes value "invalid apikey"
      || strIncludes value "invalidapi_key" || strIncludes value "invalid_api_key"
      || strIncludes value "invalid api_key"
      || strIncludes value "invalidapi key" || strIncludes value "invalid_api key"
      || strIncludes value "invalid api key"
      || strIncludes value "incorrect api key"
      || strIncludes value "invalid token"
      || strIncludes value "authentication"
      || strIncludes value "unauthorized"
      || strIncludes value "forbidden"
      || strIncludes value "access denied"
      || hasWordBoundedSub value "401"
      || hasWordBoundedSub value "403"

/-- The slice of an `AssistantMessage` the orchestrator inspects:
whether `stopReason === "error"`, and `errorMessage`. -/
structure AssistantMsg where
  stopError : Bool
  errorMessage : Option String
deriving DecidableEq, Repr

/-- `isAuthAssistantError(msg)` from pi-embedded-helpers.ts. -/
def isAuthAssistantError (msg : Option AssistantMsg) : Bool :=
  match msg with
  | none => false
  | some m => m.stopError && isAuthErrorMessage (m.errorMessage.getD "")

/-- `isRateLimitAssistantError(msg)` from pi-embedded-helpers.ts. -/
def isRateLimitAssistantError (msg : Option AssistantMsg) : Bool :=
  match msg with
  | none => false
  | some m =>
    if !m.stopError then false
    else
      let raw := jsToLower (m.errorMessage.getD "")
      if raw == "" then false
      else isRateLimitErrorMessage raw

/-- The user-facing reset instruction `formatAssistantErrorText` produces for
a context-overflow assistant error. -/
def overflowResetText : String :=
  "Context overflow: the conversation history is too large. "
    ++ "Use /new or /reset to start a fresh session."

/-- `formatAssistantErrorText(msg)` from pi-embedded-helpers.ts. The
`invalid_request_error` regex capture is passed in as `extractInvalid`
(returning the non-empty capture group when the regex matches); every claim
below holds for any such function. -/
def formatAssistantErrorText (extractInvalid : String → Option String)
    (msg : AssistantMsg) : Option String :=
  if !msg.stopError then none
  else
    let raw := jsTrim (msg.errorMessage.getD "")
    if raw == "" then some "LLM request failed with an unknown error."
    else if isContextOverflowError (some raw) then some overflowResetText
    else
      match extractInvalid raw with
      | some m => some ("LLM request rejected: " ++ m)
      | none =>
          if raw.length > 600 then some (String.mk (raw.data.take 600) ++ "…")
          else some raw

/-! ## Thinking-level fallback (pi-embedded-helpers.ts) — Claim C3 -/

/-- Modelled from the spec: the capability ("thinking") level of a request
(spec glossary: reasoning/thinking depth). The type `ThinkLevel` is declared
in src/auto-reply/thinking.ts, which is not among the provided sources; the
values are the levels the repository's directive handler enumerates
("off, minimal, low, medium, high"). The claims only use that the type is
finite with decidable equality. -/
inductive ThinkLevel where
  | off | minimal | low | medium | high
deriving DecidableEq, Repr, Fintype

/-- The scan loop of `pickFallbackThinkingLevel`: first entry that
normalises to a level not yet attempted. -/
def pickFirstFreshLevel (normalizeTL : String → Option ThinkLevel)
    (attempted : Finset ThinkLevel) : List String → Option ThinkLevel
  | [] => none
  | entry :: rest =>
    match normalizeTL entry with
    | none => pickFirstFreshLevel normalizeTL attempted rest
    | some normalized =>
        if normalized ∈ attempted then
          pickFirstFreshLevel normalizeTL attempted rest
        else some normalized

/-- `pickFallbackThinkingLevel({message, attempted})` from
pi-embedded-helpers.ts. `extractSupportedValues` (a regex helper) and
`normalizeThinkLevel` (auto-reply/thinking.ts, not among the sources) are
passed in as the parameters `extract` and `normalizeTL`; the claims hold for
every choice of both. -/
def pickFallbackThinkingLevel (extract : String → List String)
    (normalizeTL : String → Option ThinkLevel)
    (message : Option String) (attempted : Finset ThinkLevel) :
    Option ThinkLevel :=
  match message with
  | none => none
  | some m =>
    let raw := jsTrim m
    if raw == "" then none
    else
      let supported := extract raw
      if supported.isEmpty then none
      else pickFirstFreshLevel normalizeTL attempted supported

theorem pickFirstFreshLevel_fresh (normalizeTL : String → Option ThinkLevel)
    (attempted : Finset ThinkLevel) (entries : List String) (l : ThinkLevel)
    (h : pickFirstFreshLevel normalizeTL attempted entries = some l) :
    l ∉ attempted := by
  induction entries with
  | nil => simp [pickFirstFreshLevel] at h
  | cons entry rest ih =>
    unfold pickFirstFreshLevel at h
    cases hn : normalizeTL entry with
    | none =>
      rw [hn] at h
      dsimp only at h
      exact ih h
    | some normalized =>
      rw [hn] at h
      dsimp only at h
      by_cases hmem : normalized ∈ attempted
      · rw [if_pos hmem] at h
        exact ih h
      · rw [if_neg hmem] at h
        cases h
        exact hmem

theorem pickFallbackThinkingLevel_fresh (extract : String → List String)
    (normalizeTL : String → Option ThinkLevel) (message : Option String)
    (attempted : Finset ThinkLevel) (l : ThinkLevel)
    (h : pickFallbackThinkingLevel extract normalizeTL message attempted
      = some l) :
    l ∉ attempted := by
  unfold pickFallbackThinkingLevel at h
  cases message with
  | none => cases h
  | some m =>
    dsimp only at h
    by_cases hr : jsTrim m == ""
    · rw [if_pos hr] at h; cases h
    · rw [if_neg hr] at h
      by_cases hs : (extract (jsTrim m)).isEmpty
      · rw [if_pos hs] at h; cases h
      · rw [if_neg hs] at h
        exact pickFirstFreshLevel_fresh _ _ _ _ h

/-! ## Orchestrator retry loop (pi-embedded-runner.ts, `runEmbeddedPiAgent`)

The attempt itself (session creation, prompting, streaming) is external I/O;
one loop iteration is modelled as: the loop top records the current thinking
level in the attempted set, one attempt runs and yields observations
(`AttemptObs`), and the remainder of the iteration classifies them. API-key
resolution (`getApiKeyForModel` via `applyApiKeyInfo`) is the oracle
`resolveKey`. -/

/-- The fields of the `getApiKeyForModel` result the loop uses. -/
structure ApiKeyInfo where
  apiKey : String
  profileId : Option String
deriving DecidableEq, Repr

/-- The mutable loop state of `runEmbeddedPiAgent`: the store, the index into
the candidate list, the current thinking level, the attempted-levels set and
the last profile an API key was applied for. -/
structure RunState where
  store : AuthProfileStore
  profileIndex : Nat
  thinkLevel : ThinkLevel
  attemptedThinking : Finset ThinkLevel
  lastProfileId : Option String
deriving DecidableEq

/-- `markAuthProfileCooldown(params)` from auth-profiles.ts, as its effect on
the caller's store: no-op when the profile id is unknown, otherwise increment
`errorCount` and set `cooldownUntil = now + backoff(newCount)`. In this
single-store model the locked re-read sees the same store, and the
lock-failure fallback path applies the identical mutation. -/
def markAuthProfileCooldown (store : AuthProfileStore) (profileId : String)
    (now : Int) : AuthProfileStore :=
  match lookupEntry store.profiles profileId with
  | none => store
  | some _ =>
    let existing :=
      (lookupEntry store.usageStats profileId).getD ProfileUsageStats.empty
    let errorCount := existing.errorCount.getD 0 + 1
    let backoffMs := calculateAuthProfileCooldownMs errorCount
    { store with
        usageStats := setEntry store.usageStats profileId
          { existing with
              errorCount := some errorCount
              cooldownUntil := some (now + backoffMs) } }

/-- Result of scanning the candidate suffix in `advanceAuthProfile`. -/
inductive AdvanceResult where
  | exhausted
  | advanced (offset : Nat) (info : ApiKeyInfo)
  | failedExplicit (err : String)
deriving DecidableEq, Repr

/-- The scan loop of `advanceAuthProfile`: try each remaining candidate; a
resolution failure of the explicitly requested (truthy) profile propagates,
any other failure moves on to the next candidate. -/
def advanceScan (resolveKey : Option String → Except String ApiKeyInfo)
    (explicitProfileId : Option String) :
    List (Option String) → AdvanceResult
  | [] => .exhausted
  | candidate :: rest =>
    match resolveKey candidate with
    | .ok info => .advanced 0 info
    | .error e =>
      if isTruthyStr candidate && candidate == explicitProfileId then
        .failedExplicit e
      else
        match advanceScan resolveKey explicitProfileId rest with
        | .advanced k info => .advanced (k + 1) info
        | r => r

/-- `advanceAuthProfile` from `runEmbeddedPiAgent`: scan the candidates after
`profileIndex`; on success move the index there, reset the thinking level,
clear the attempted set and record the new profile id; report `none` on
exhaustion; propagate the error of a failing explicit candidate. -/
def advanceAuthProfile (resolveKey : Option String → Except String ApiKeyInfo)
    (explicitProfileId : Option String) (candidates : List (Option String))
    (initialThinkLevel : ThinkLevel) (st : RunState) :
    Except String (Option RunState) :=
  match advanceScan resolveKey explicitProfileId
      (candidates.drop (st.profileIndex + 1)) with
  | .exhausted => .ok none
  | .failedExplicit e => .error e
  | .advanced k info => .ok (some
      { st with
          profileIndex := st.profileIndex + 1 + k
          thinkLevel := initialThinkLevel
          attemptedThinking := ∅
          lastProfileId := info.profileId })

/-- The profile selection preceding the loop (runner lines 957-1017): reject
an explicit profile missing from the resolved order; try the first candidate;
on failure rethrow if it was the explicit profile, otherwise advance, and
rethrow the original error on exhaustion. -/
def selectInitialProfile
    (resolveKey : Option String → Except String ApiKeyInfo)
    (explicitProfileId : Option String) (profileOrder : List String)
    (provider : String) (initialThinkLevel : ThinkLevel)
    (store : AuthProfileStore) : Except String RunState :=
  if isTruthyStr explicitProfileId
      && !(profileOrder.contains (explicitProfileId.getD "")) then
    .error ("Auth profile \"" ++ explicitProfileId.getD ""
      ++ "\" is not configured for " ++ provider ++ ".")
  else
    let profileCandidates : List (Option String) :=
      if profileOrder.length > 0 then profileOrder.map some else [none]
    let first := profileCandidates.headD none
    match resolveKey first with
    | .ok info => .ok ⟨store, 0, initialThinkLevel, ∅, info.profileId⟩
    | .error e =>
      if first == explicitProfileId then .error e
      else
        match advanceScan resolveKey explicitProfileId
            (profileCandidates.drop 1) with
        | .advanced k info =>
            .ok ⟨store, 1 + k, initialThinkLevel, ∅, info.profileId⟩
        | .exhausted => .error e
        | .failedExplicit e2 => .error e2

/-- The observations one attempt yields to the classification code: whether
the run was aborted, whether the abort came from the timeout timer, the
description of a thrown prompt error, and the last assistant message. -/
structure AttemptObs where
  aborted : Bool
  timedOut : Bool
  promptError : Option String
  lastAssistant : Option AssistantMsg
deriving DecidableEq, Repr

/-- What one loop iteration decides. -/
inductive StepOutcome where
  | terminalOverflow (text : String)
  | continueRotated
  | continueThinking (level : ThinkLevel)
  | throwError (err : String)
  | finish (errorText : Option String)
deriving DecidableEq, Repr

/-- The user-facing payload of the prompt-error context-overflow return
(runner lines 1308-1325). -/
def overflowPromptPayloadText : String :=
  "Context overflow: the conversation history is too large for the model. "
    ++ "Use /new or /reset to start a fresh session, or try a model with a "
    ++ "larger context window."

/-- The thinking-level fallback applied to a thrown prompt error (runner
lines 1334-1345). -/
def promptThinkingFallback (extract : String → List String)
    (normalizeTL : String → Option ThinkLevel) (errorText : String)
    (st : RunState) : StepOutcome × RunState :=
  match pickFallbackThinkingLevel extract normalizeTL (some errorText)
      st.attemptedThinking with
  | some l => (.continueThinking l, { st with thinkLevel := l })
  | none => (.throwError errorText, st)

/-- JS `a || b || dflt` over strings: first truthy (non-empty) value. -/
def firstTruthyStr : List (Option String) → String → String
  | [], dflt => dflt
  | s :: rest, dflt =>
    match s with
    | some v => if v ≠ "" then v else firstTruthyStr rest dflt
    | none => firstTruthyStr rest dflt

/-- The error message thrown when rotation is exhausted but fallback models
are configured (runner lines 1393-1404). -/
def rotationFailureMessage (extractInvalid : String → Option String)
    (obs : AttemptObs) (rateLimitFailure : Bool) : String :=
  firstTruthyStr
    [obs.lastAssistant.bind (fun a => a.errorMessage.map (fun s => jsTrim s)),
     obs.lastAssistant.bind (fun a => formatAssistantErrorText extractInvalid a)]
    (if obs.timedOut then "LLM request timed out."
     else if rateLimitFailure then "LLM request rate limited."
     else "LLM request unauthorized.")

/-- The assistant-message half of the iteration tail (runner lines
1348-1426): thinking fallback, cooldown + rotation for assistant-reported
auth/rate-limit failures and timeouts, then fall-through to result assembly
with `formatAssistantErrorText` as the error payload. -/
def assistantPathOutcome (extract : String → List String)
    (normalizeTL : String → Option ThinkLevel)
    (extractInvalid : String → Option String)
    (resolveKey : Option String → Except String ApiKeyInfo)
    (explicitProfileId : Option String) (candidates : List (Option String))
    (fallbackConfigured : Bool) (initialThinkLevel : ThinkLevel) (now : Int)
    (st : RunState) (obs : AttemptObs) : StepOutcome × RunState :=
  let fallbackThinking := pickFallbackThinkingLevel extract normalizeTL
    (obs.lastAssistant.bind (fun a => a.errorMessage)) st.attemptedThinking
  match fallbackThinking, obs.aborted with
  | some l, false => (.continueThinking l, { st with thinkLevel := l })
  | _, _ =>
    let authFailure := isAuthAssistantError obs.lastAssistant
    let rateLimitFailure := isRateLimitAssistantError obs.lastAssistant
    let shouldRotate :=
      (!obs.aborted && (authFailure || rateLimitFailure)) || obs.timedOut
    if shouldRotate then
      let st1 :=
        match st.lastProfileId with
        | some p =>
            if p ≠ "" then
              { st with store := markAuthProfileCooldown st.store p now }
            else st
        | none => st
      match advanceAuthProfile resolveKey explicitProfileId candidates
          initialThinkLevel st1 with
      | .error e => (.throwError e, st1)
      | .ok (some st2) => (.continueRotated, st2)
      | .ok none =>
          if fallbackConfigured then
            (.throwError (rotationFailureMessage extractInvalid obs
              rateLimitFailure), st1)
          else
            (.finish (obs.lastAssistant.bind
              (formatAssistantErrorText extractInvalid)), st1)
    else
      (.finish (obs.lastAssistant.bind
        (formatAssistantErrorText extractInvalid)), st)

/-- The whole iteration tail (runner lines 1305-1426): the prompt-error path
runs when a prompt error was captured and the run was not aborted — context
overflow is terminal there, auth/rate-limit errors advance the candidate
list, otherwise the thinking fallback applies and finally the error is
rethrown; in every other case the assistant-message path runs. -/
def classifyAttemptOutcome (extract : String → List String)
    (normalizeTL : String → Option ThinkLevel)
    (extractInvalid : String → Option String)
    (resolveKey : Option String → Except String ApiKeyInfo)
    (explicitProfileId : Option String) (candidates : List (Option String))
    (fallbackConfigured : Bool) (initialThinkLevel : ThinkLevel) (now : Int)
    (st : RunState) (obs : AttemptObs) : StepOutcome × RunState :=
  match obs.promptError, obs.aborted with
  | some errorText, false =>
    if isContextOverflowError (some errorText) then
      (.terminalOverflow overflowPromptPayloadText, st)
    else if isAuthErrorMessage errorText || isRateLimitErrorMessage errorText then
      match advanceAuthProfile resolveKey explicitProfileId candidates
          initialThinkLevel st with
      | .error e => (.throwError e, st)
      | .ok (some st2) => (.continueRotated, st2)
      | .ok none => promptThinkingFallback extract normalizeTL errorText st
    else promptThinkingFallback extract normalizeTL errorText st
  | _, _ =>
    assistantPathOutcome extract normalizeTL extractInvalid resolveKey
      explicitProfileId candidates fallbackConfigured initialThinkLevel now
      st obs

/-- One full loop iteration: the loop top adds the current thinking level to
the attempted set (runner line 1021) before the attempt, whose observations
are then classified. -/
def runIteration (extract : String → List String)
    (normalizeTL : String → Option ThinkLevel)
    (extractInvalid : String → Option String)
    (resolveKey : Option String → Except String ApiKeyInfo)
    (explicitProfileId : Option String) (candidates : List (Option String))
    (fallbackConfigured : Bool) (initialThinkLevel : ThinkLevel) (now : Int)
    (st : RunState) (obs : AttemptObs) : StepOutcome × RunState :=
  classifyAttemptOutcome extract normalizeTL extractInvalid resolveKey
    explicitProfileId candidates fallbackConfigured initialThinkLevel now
    { st with attemptedThinking := insert st.thinkLevel st.attemptedThinking }
    obs

/-! ## Claim C3: the capability-fallback retry is bounded -/

theorem promptThinkingFallback_continueThinking
    (extract : String → List String) (normalizeTL : String → Option ThinkLevel)
    (errorText : String) (st : RunState) (l : ThinkLevel) (st' : RunState)
    (h : promptThinkingFallback extract normalizeTL errorText st
      = (.continueThinking l, st')) :
    pickFallbackThinkingLevel extract normalizeTL (some errorText)
        st.attemptedThinking = some l
    ∧ st' = { st with thinkLevel := l } := by
  unfold promptThinkingFallback at h
  cases hfb : pickFallbackThinkingLevel extract normalizeTL (some errorText)
      st.attemptedThinking with
  | none =>
    rw [hfb] at h
    simp at h
  | some lf =>
    rw [hfb] at h
    simp only [Prod.mk.injEq] at h
    obtain ⟨h1, h2⟩ := h
    cases h1
    exact ⟨rfl, h2.symm⟩

theorem assistantPath_continueThinking
    (extract : String → List String) (normalizeTL : String → Option ThinkLevel)
    (extractInvalid : String → Option String)
    (resolveKey : Option String → Except String ApiKeyInfo)
    (explicitProfileId : Option String) (candidates : List (Option String))
    (fallbackConfigured : Bool) (initialThinkLevel : ThinkLevel) (now : Int)
    (st : RunState) (obs : AttemptObs) (l : ThinkLevel) (st' : RunState)
    (h : assistantPathOutcome extract normalizeTL extractInvalid resolveKey
      explicitProfileId candidates fallbackConfigured initialThinkLevel now
      st obs = (.continueThinking l, st')) :
    pickFallbackThinkingLevel extract normalizeTL
        (obs.lastAssistant.bind (fun a => a.errorMessage)) st.attemptedThinking
      = some l
    ∧ st' = { st with thinkLevel := l } := by
  unfold assistantPathOutcome at h
  cases hfb : pickFallbackThinkingLevel extract normalizeTL
      (obs.lastAssistant.bind (fun a => a.errorMessage)) st.attemptedThinking with
  | some lf =>
    rw [hfb] at h
    cases hab : obs.aborted with
    | false =>
      rw [hab] at h
      simp only [Prod.mk.injEq] at h
      obtain ⟨h1, h2⟩ := h
      cases h1
      exact ⟨rfl, h2.symm⟩
    | true =>
      rw [hab] at h
      dsimp only at h
      exfalso
      split at h
      · split at h <;> first | (split at h <;> simp at h) | simp at h
      · simp at h
  | none =>
    rw [hfb] at h
    dsimp only at h
    exfalso
    rcases hab : obs.aborted with _ | _ <;> rw [hab] at h <;> try dsimp only at h
    · split at h
      · split at h <;> first | (split at h <;> simp at h) | simp at h
      · simp at h
    · split at h
      · split at h <;> first | (split at h <;> simp at h) | simp at h
      · simp at h

theorem classify_continueThinking (extract : String → List String)
    (normalizeTL : String → Option ThinkLevel)
    (extractInvalid : String → Option String)
    (resolveKey : Option String → Except String ApiKeyInfo)
    (explicitProfileId : Option String) (candidates : List (Option String))
    (fallbackConfigured : Bool) (initialThinkLevel : ThinkLevel) (now : Int)
    (st : RunState) (obs : AttemptObs) (l : ThinkLevel) (st' : RunState)
    (h : classifyAttemptOutcome extract normalizeTL extractInvalid resolveKey
      explicitProfileId candidates fallbackConfigured initialThinkLevel now
      st obs = (.continueThinking l, st')) :
    l ∉ st.attemptedThinking ∧ st' = { st with thinkLevel := l } := by
  unfold classifyAttemptOutcome at h
  rcases hpe : obs.promptError with _ | errTxt
  · rw [hpe] at h
    dsimp only at h
    obtain ⟨hp, hs⟩ := assistantPath_continueThinking extract normalizeTL
      extractInvalid resolveKey explicitProfileId candidates fallbackConfigured
      initialThinkLevel now st obs l st' h
    exact ⟨pickFallbackThinkingLevel_fresh _ _ _ _ _ hp, hs⟩
  · rw [hpe] at h
    cases hab : obs.aborted with
    | true =>
      rw [hab] at h
      dsimp only at h
      obtain ⟨hp, hs⟩ := assistantPath_continueThinking extract normalizeTL
        extractInvalid resolveKey explicitProfileId candidates
        fallbackConfigured initialThinkLevel now st obs l st' h
      exact ⟨pickFallbackThinkingLevel_fresh _ _ _ _ _ hp, hs⟩
    | false =>
      rw [hab] at h
      dsimp only at h
      split at h
      · simp at h
      · split at h
        · split at h
          · simp at h
          · simp at h
          · obtain ⟨hp, hs⟩ :=
              promptThinkingFallback_continueThinking _ _ _ _ _ _ h
            exact ⟨pickFallbackThinkingLevel_fresh _ _ _ _ _ hp, hs⟩
        · obtain ⟨hp, hs⟩ :=
            promptThinkingFallback_continueThinking _ _ _ _ _ _ h
          exact ⟨pickFallbackThinkingLevel_fresh _ _ _ _ _ hp, hs⟩

theorem card_univ_diff_insert_lt {α : Type} [Fintype α] [DecidableEq α]
    (A : Finset α) (l : α) (hl : l ∉ A) :
    (Finset.univ \ insert l A).card < (Finset.univ \ A).card := by
  have h1 : (Finset.univ \ insert l A).card
      = Fintype.card α - (insert l A).card := Finset.card_univ_diff _
  have h2 : (Finset.univ \ A).card = Fintype.card α - A.card :=
    Finset.card_univ_diff _
  have h3 : (insert l A).card = A.card + 1 := Finset.card_insert_of_not_mem hl
  have h4 : (insert l A).card ≤ Fintype.card α := Finset.card_le_univ _
  omega

/-- C3: the same thinking level is never attempted twice in one run. The
attempted level is inserted into the attempted set at the loop top before
the attempt; `pickFallbackThinkingLevel` only ever returns a level outside
the attempted set (for every message and every extraction/normalisation
function); a capability-fallback iteration keeps the profile index, extends
the attempted set with the level it just tried, and strictly decreases the
number of not-yet-attempted levels, which is bounded by the finite number of
capability levels — so the capability-fallback retry loop terminates. -/
theorem C3_capability_retry_no_repeat :
    (∀ (extract : String → List String)
       (normalizeTL : String → Option ThinkLevel) (message : Option String)
       (attempted : Finset ThinkLevel) (l : ThinkLevel),
      pickFallbackThinkingLevel extract normalizeTL message attempted = some l →
      l ∉ attempted)
    ∧ (∀ (extract : String → List String)
         (normalizeTL : String → Option ThinkLevel)
         (extractInvalid : String → Option String)
         (resolveKey : Option String → Except String ApiKeyInfo)
         (explicitProfileId : Option String)
         (candidates : List (Option String)) (fallbackConfigured : Bool)
         (initialThinkLevel : ThinkLevel) (now : Int) (st : RunState)
         (obs : AttemptObs) (l : ThinkLevel) (st' : RunState),
        runIteration extract normalizeTL extractInvalid resolveKey
            explicitProfileId candidates fallbackConfigured initialThinkLevel
            now st obs = (.continueThinking l, st') →
        st.thinkLevel ∈ st'.attemptedThinking
        ∧ st'.attemptedThinking = insert st.thinkLevel st.attemptedThinking
        ∧ st'.thinkLevel = l
        ∧ l ∉ insert st.thinkLevel st.attemptedThinking
        ∧ st'.profileIndex = st.profileIndex
        ∧ (Finset.univ \ insert st'.thinkLevel st'.attemptedThinking).card
            < (Finset.univ \ insert st.thinkLevel st.attemptedThinking).card)
    ∧ (∀ st : RunState,
        (Finset.univ \ insert st.thinkLevel st.attemptedThinking).card
          ≤ Fintype.card ThinkLevel) := by
  refine ⟨pickFallbackThinkingLevel_fresh, ?_, fun st => Finset.card_le_univ _⟩
  intro extract normalizeTL extractInvalid resolveKey explicitProfileId
    candidates fallbackConfigured initialThinkLevel now st obs l st' h
  unfold runIteration at h
  obtain ⟨hfresh, hs⟩ := classify_continueThinking extract normalizeTL
    extractInvalid resolveKey explicitProfileId candidates fallbackConfigured
    initialThinkLevel now _ obs l st' h
  subst hs
  refine ⟨Finset.mem_insert_self _ _, rfl, rfl, hfresh, rfl, ?_⟩
  exact card_univ_diff_insert_lt _ _ hfresh

/-- Witness for C3: a concrete capability-fallback iteration (assistant
reported an unsupported level, "low" extracted, "off" already attempted)
keeps the index, records "off" as attempted and strictly shrinks the set of
unattempted levels. -/
theorem C3_capability_retry_no_repeat_witness :
    ThinkLevel.off ∈ (insert ThinkLevel.off (∅ : Finset ThinkLevel))
    ∧ ThinkLevel.low ∉ insert ThinkLevel.off (∅ : Finset ThinkLevel)
    ∧ (Finset.univ \ insert ThinkLevel.low
          (insert ThinkLevel.off (∅ : Finset ThinkLevel))).card
        < (Finset.univ \ insert ThinkLevel.off (∅ : Finset ThinkLevel)).card :=
  have h := C3_capability_retry_no_repeat.2.1 (fun _ => ["low"])
    (fun s => if s == "low" then some .low else none) (fun _ => none)
    (fun _ => .error "no") none [] false .off 0
    ⟨⟨1, [], [], []⟩, 0, .off, ∅, none⟩
    ⟨false, false, none, some ⟨true, some "use low"⟩⟩ .low
    ⟨⟨1, [], [], []⟩, 0, .low, insert .off ∅, none⟩ (by decide)
  ⟨h.1, h.2.2.2.1, h.2.2.2.2.2⟩

/-! ## Claim C2: cooldown marking on rotation -/

theorem lookup_setEntry_same {α : Type} (l : List (String × α)) (k : String)
    (v : α) : lookupEntry (setEntry l k v) k = some v := by
  induction l with
  | nil => simp [setEntry, lookupEntry, List.find?]
  | cons kv rest ih =>
    obtain ⟨ka, va⟩ := kv
    by_cases hk : ka = k
    · subst hk
      simp [setEntry, lookupEntry, List.find?]
    · have hbeq : (ka == k) = false := by simp [hk]
      simp only [setEntry, if_neg hk, lookupEntry, List.find?, hbeq]
      exact ih

/-- Store for the C2/C6 counterexamples: two same-provider api_key profiles,
no usage stats. -/
def storeC2 : AuthProfileStore :=
  { version := 1
  , profiles := [("p1", .api_key ⟨"prov", "k1", none⟩),
                 ("p2", .api_key ⟨"prov", "k2", none⟩)]
  , lastGood := []
  , usageStats := [] }

/-- Resolution oracle for the C2/C6 counterexamples: only "p2" resolves. -/
def resolveKeyC2 : Option String → Except String ApiKeyInfo :=
  fun c => if c == some "p2" then .ok ⟨"k2", some "p2"⟩
    else .error "resolve failed"

/-- C2 counterexample: an attempt whose failure surfaces as a thrown prompt
error classified as an auth error (no user-pinned profile) advances from
"p1" to "p2" while leaving the store untouched — no cooldown is marked for
"p1", although `markAuthProfileCooldown` would have recorded one. -/
theorem C2_counterexample_prompt_error_no_cooldown :
    isAuthErrorMessage "401 unauthorized" = true
    ∧ runIteration (fun _ => []) (fun _ => none) (fun _ => none) resolveKeyC2
        none [some "p1", some "p2"] false .off 0
        ⟨storeC2, 0, .off, ∅, some "p1"⟩
        ⟨false, false, some "401 unauthorized", none⟩
      = (.continueRotated, ⟨storeC2, 1, .off, ∅, some "p2"⟩)
    ∧ (markAuthProfileCooldown storeC2 "p1" 0).usageStats
        = [("p1", ⟨none, some 60000, some 1⟩)]
    ∧ storeC2.usageStats = [] :=
  ⟨by decide, by decide, by decide, rfl⟩

/-- The prompt-error block runs only when a prompt error was captured and
the run was not aborted (`if (promptError && !aborted)`, runner line 1305):
with no prompt error, or with the run aborted — in particular after the
timeout timer fired and the aborted prompt threw, the error being captured
at runner lines 1270-1288 — the iteration proceeds to the assistant-message
path. -/
theorem classify_assistant_path (extract : String → List String)
    (normalizeTL : String → Option ThinkLevel)
    (extractInvalid : String → Option String)
    (resolveKey : Option String → Except String ApiKeyInfo)
    (explicitProfileId : Option String) (candidates : List (Option String))
    (fallbackConfigured : Bool) (initialThinkLevel : ThinkLevel) (now : Int)
    (st : RunState) (obs : AttemptObs)
    (hpe : obs.promptError = none ∨ obs.aborted = true) :
    classifyAttemptOutcome extract normalizeTL extractInvalid resolveKey
        explicitProfileId candidates fallbackConfigured initialThinkLevel now
        st obs
      = assistantPathOutcome extract normalizeTL extractInvalid resolveKey
          explicitProfileId candidates fallbackConfigured initialThinkLevel
          now st obs := by
  unfold classifyAttemptOutcome
  rcases hpe with hpe | hab
  · rw [hpe]
  · cases hpe2 : obs.promptError with
    | none => rfl
    | some e => rw [hab]

/-- C2 (amended): whenever the iteration takes the assistant-message path —
no prompt error was captured, or the run was aborted, which is how the
timeout flow arrives here after the aborted prompt threw — and the outcome
is classified as an assistant-reported auth or rate-limit error or as a
timeout via the timeout flag, and the loop held a (truthy) last profile id
present in the store, the iteration marks that profile's cooldown —
incrementing its errorCount and setting cooldownUntil to now plus the
backoff for the new count — before advancing the candidate list; when it
does advance, the profile index strictly increases. (A non-aborted failure
that surfaces as a thrown prompt error advances without marking any
cooldown; see the counterexample.) -/
theorem C2_assistant_failure_marks_cooldown_before_rotation
    (extract : String → List String) (normalizeTL : String → Option ThinkLevel)
    (extractInvalid : String → Option String)
    (resolveKey : Option String → Except String ApiKeyInfo)
    (explicitProfileId : Option String) (candidates : List (Option String))
    (fallbackConfigured : Bool) (initialThinkLevel : ThinkLevel) (now : Int)
    (st : RunState) (obs : AttemptObs) (p : String)
    (hpe : obs.promptError = none ∨ obs.aborted = true)
    (hfb : pickFallbackThinkingLevel extract normalizeTL
        (obs.lastAssistant.bind (fun a => a.errorMessage)) st.attemptedThinking
        = none
      ∨ obs.aborted = true)
    (hsr : ((!obs.aborted
        && (isAuthAssistantError obs.lastAssistant
            || isRateLimitAssistantError obs.lastAssistant))
      || obs.timedOut) = true)
    (hlp : st.lastProfileId = some p) (hpne : p ≠ "")
    (hprof : (lookupEntry st.store.profiles p).isSome = true) :
    (classifyAttemptOutcome extract normalizeTL extractInvalid resolveKey
        explicitProfileId candidates fallbackConfigured initialThinkLevel now
        st obs).2.store = markAuthProfileCooldown st.store p now
    ∧ ((classifyAttemptOutcome extract normalizeTL extractInvalid resolveKey
        explicitProfileId candidates fallbackConfigured initialThinkLevel now
        st obs).1 = .continueRotated →
      (classifyAttemptOutcome extract normalizeTL extractInvalid resolveKey
        explicitProfileId candidates fallbackConfigured initialThinkLevel now
        st obs).2.profileIndex > st.profileIndex)
    ∧ lookupEntry (markAuthProfileCooldown st.store p now).usageStats p
        = some
          { lastUsed :=
              ((lookupEntry st.store.usageStats p).getD
                ProfileUsageStats.empty).lastUsed
          , cooldownUntil := some (now + calculateAuthProfileCooldownMs
              (((lookupEntry st.store.usageStats p).getD
                ProfileUsageStats.empty).errorCount.getD 0 + 1))
          , errorCount := some
              (((lookupEntry st.store.usageStats p).getD
                ProfileUsageStats.empty).errorCount.getD 0 + 1) } := by
  have hmark : lookupEntry (markAuthProfileCooldown st.store p now).usageStats p
      = some
        { lastUsed :=
            ((lookupEntry st.store.usageStats p).getD
              ProfileUsageStats.empty).lastUsed
        , cooldownUntil := some (now + calculateAuthProfileCooldownMs
            (((lookupEntry st.store.usageStats p).getD
              ProfileUsageStats.empty).errorCount.getD 0 + 1))
        , errorCount := some
            (((lookupEntry st.store.usageStats p).getD
              ProfileUsageStats.empty).errorCount.getD 0 + 1) } := by
    obtain ⟨cred, hcred⟩ := Option.isSome_iff_exists.mp hprof
    unfold markAuthProfileCooldown
    rw [hcred]
    dsimp only
    exact lookup_setEntry_same _ _ _
  have hst1 : (match st.lastProfileId with
      | some q =>
          if q ≠ "" then
            { st with store := markAuthProfileCooldown st.store q now }
          else st
      | none => st)
      = { st with store := markAuthProfileCooldown st.store p now } := by
    rw [hlp]
    dsimp only
    rw [if_pos hpne]
  have hcl : classifyAttemptOutcome extract normalizeTL extractInvalid
      resolveKey explicitProfileId candidates fallbackConfigured
      initialThinkLevel now st obs
      = (match advanceAuthProfile resolveKey explicitProfileId candidates
            initialThinkLevel
            { st with store := markAuthProfileCooldown st.store p now } with
        | .error e =>
            (.throwError e,
              { st with store := markAuthProfileCooldown st.store p now })
        | .ok (some st2) => (.continueRotated, st2)
        | .ok none =>
            if fallbackConfigured then
              (.throwError (rotationFailureMessage extractInvalid obs
                (isRateLimitAssistantError obs.lastAssistant)),
                { st with store := markAuthProfileCooldown st.store p now })
            else
              (.finish (obs.lastAssistant.bind
                (formatAssistantErrorText extractInvalid)),
                { st with store := markAuthProfileCooldown st.store p now })) := by
    rw [classify_assistant_path extract normalizeTL extractInvalid resolveKey
      explicitProfileId candidates fallbackConfigured initialThinkLevel now
      st obs hpe]
    rcases hfb with hfbn | habt
    · unfold assistantPathOutcome
      rw [hfbn]
      dsimp only
      rw [hsr, if_pos (rfl : (true : Bool) = true)]
      rw [hst1]
    · have htd : obs.timedOut = true := by
        rw [habt] at hsr
        simpa using hsr
      cases hfb2 : pickFallbackThinkingLevel extract normalizeTL
          (obs.lastAssistant.bind (fun a => a.errorMessage))
          st.attemptedThinking with
      | none =>
        unfold assistantPathOutcome
        rw [hfb2]
        dsimp only
        rw [hsr, if_pos (rfl : (true : Bool) = true)]
        rw [hst1]
      | some l =>
        unfold assistantPathOutcome
        rw [hfb2, habt]
        dsimp only
        have hsr2 : ((!true
            && (isAuthAssistantError obs.lastAssistant
                || isRateLimitAssistantError obs.lastAssistant))
          || obs.timedOut) = true := by
          rw [htd]
          simp
        rw [hsr2, if_pos (rfl : (true : Bool) = true)]
        rw [hst1]
  refine ⟨?_, ?_, hmark⟩
  · rw [hcl]
    cases hadv : advanceAuthProfile resolveKey explicitProfileId candidates
        initialThinkLevel
        { st with store := markAuthProfileCooldown st.store p now } with
    | error e => rfl
    | ok o =>
      cases o with
      | none =>
        dsimp only
        cases fallbackConfigured <;> simp
      | some st2 =>
        dsimp only
        unfold advanceAuthProfile at hadv
        cases hscan : advanceScan resolveKey explicitProfileId
            (candidates.drop
              (({ st with store := markAuthProfileCooldown st.store p now }
                : RunState).profileIndex + 1)) with
        | exhausted => rw [hscan] at hadv; cases hadv
        | failedExplicit e => rw [hscan] at hadv; cases hadv
        | advanced k info =>
          rw [hscan] at hadv
          cases hadv
          rfl
  · rw [hcl]
    cases hadv : advanceAuthProfile resolveKey explicitProfileId candidates
        initialThinkLevel
        { st with store := markAuthProfileCooldown st.store p now } with
    | error e => intro hco; cases hco
    | ok o =>
      cases o with
      | none =>
        dsimp only
        cases fallbackConfigured <;> (intro hco; simp at hco)
      | some st2 =>
        dsimp only
        intro _
        unfold advanceAuthProfile at hadv
        cases hscan : advanceScan resolveKey explicitProfileId
            (candidates.drop
              (({ st with store := markAuthProfileCooldown st.store p now }
                : RunState).profileIndex + 1)) with
        | exhausted => rw [hscan] at hadv; cases hadv
        | failedExplicit e => rw [hscan] at hadv; cases hadv
        | advanced k info =>
          rw [hscan] at hadv
          cases hadv
          dsimp only
          omega

/-- Witness for the amended C2, exercising both classification routes:
a rate-limited assistant error on profile "p1" marks its cooldown
(errorCount 1, cooldownUntil 100 + 60000) and rotation moves to a later
candidate; and a timed-out iteration — aborted, timeout flag set, the
aborted prompt's thrown error captured as the prompt error — equally marks
the cooldown before rotating. -/
theorem C2_assistant_failure_marks_cooldown_witness :
    (classifyAttemptOutcome (fun _ => []) (fun _ => none) (fun _ => none)
        resolveKeyC2 none [some "p1", some "p2"] false .off 100
        ⟨storeC2, 0, .off, ∅, some "p1"⟩
        ⟨false, false, none, some ⟨true, some "429 too many requests"⟩⟩).2.store
      = markAuthProfileCooldown storeC2 "p1" 100
    ∧ (classifyAttemptOutcome (fun _ => []) (fun _ => none) (fun _ => none)
        resolveKeyC2 none [some "p1", some "p2"] false .off 100
        ⟨storeC2, 0, .off, ∅, some "p1"⟩
        ⟨false, false, none, some ⟨true, some "429 too many requests"⟩⟩).2.profileIndex
      > 0
    ∧ lookupEntry (markAuthProfileCooldown storeC2 "p1" 100).usageStats "p1"
        = some ⟨none, some 60100, some 1⟩
    ∧ (classifyAttemptOutcome (fun _ => []) (fun _ => none) (fun _ => none)
        resolveKeyC2 none [some "p1", some "p2"] false .off 50
        ⟨storeC2, 0, .off, ∅, some "p1"⟩
        ⟨true, true, some "AbortError: this operation was aborted",
          none⟩).2.store
      = markAuthProfileCooldown storeC2 "p1" 50
    ∧ (classifyAttemptOutcome (fun _ => []) (fun _ => none) (fun _ => none)
        resolveKeyC2 none [some "p1", some "p2"] false .off 50
        ⟨storeC2, 0, .off, ∅, some "p1"⟩
        ⟨true, true, some "AbortError: this operation was aborted",
          none⟩).2.profileIndex
      > 0 :=
  have h := C2_assistant_failure_marks_cooldown_before_rotation
    (fun _ => []) (fun _ => none) (fun _ => none) resolveKeyC2 none
    [some "p1", some "p2"] false .off 100
    ⟨storeC2, 0, .off, ∅, some "p1"⟩
    ⟨false, false, none, some ⟨true, some "429 too many requests"⟩⟩ "p1"
    (Or.inl rfl) (Or.inl (by decide)) (by decide) rfl (by decide) (by decide)
  have ht := C2_assistant_failure_marks_cooldown_before_rotation
    (fun _ => []) (fun _ => none) (fun _ => none) resolveKeyC2 none
    [some "p1", some "p2"] false .off 50
    ⟨storeC2, 0, .off, ∅, some "p1"⟩
    ⟨true, true, some "AbortError: this operation was aborted", none⟩ "p1"
    (Or.inr rfl) (Or.inr rfl) (by decide) rfl (by decide) (by decide)
  ⟨h.1, h.2.1 (by decide), by rw [h.2.2]; decide,
    ht.1, ht.2.1 (by decide)⟩

/-! ## Claim C6: context overflow is terminal -/

/-- C6 counterexample: an assistant-reported failure whose text satisfies
the context-overflow classifier but also matches the rate-limit patterns
("429: maximum context length") is rotated with a cooldown applied, instead
of terminating with the reset payload. -/
theorem C6_counterexample_overflow_with_429_rotates :
    isContextOverflowError (some "429: maximum context length") = true
    ∧ runIteration (fun _ => []) (fun _ => none) (fun _ => none) resolveKeyC2
        none [some "p1", some "p2"] false .off 0
        ⟨storeC2, 0, .off, ∅, some "p1"⟩
        ⟨false, false, none,
          some ⟨true, some "429: maximum context length"⟩⟩
      = (.continueRotated,
          ⟨markAuthProfileCooldown storeC2 "p1" 0, 1, .off, ∅, some "p2"⟩)
    ∧ markAuthProfileCooldown storeC2 "p1" 0 ≠ storeC2 :=
  ⟨by decide, by decide, by decide⟩

theorem formatAssistantErrorText_overflow
    (extractInvalid : String → Option String) (a : AssistantMsg) (m : String)
    (hstop : a.stopError = true) (hmsg : a.errorMessage = some m)
    (hne : (jsTrim m == "") = false)
    (hov : isContextOverflowError (some (jsTrim m)) = true) :
    formatAssistantErrorText extractInvalid a = some overflowResetText := by
  unfold formatAssistantErrorText
  rw [hstop, hmsg]
  simp only [Option.getD_some]
  rw [if_neg (by simp : ¬ ((!true) = true))]
  rw [if_neg (by simp [hne] : ¬ ((jsTrim m == "") = true))]
  rw [if_pos hov]

/-- C6 (amended): a failure classified as context overflow is terminal with
a payload instructing a session reset and causes neither rotation nor
cooldown, provided it wins the classification — unconditionally when the
failure surfaces as a thrown prompt error (there the overflow check runs
first), and for assistant-reported failures when the text does not also
match the auth or rate-limit patterns, the attempt did not time out, and no
capability fallback applies. (An assistant-reported overflow whose text also
matches the rate-limit patterns rotates with a cooldown; see the
counterexample.) -/
theorem C6_context_overflow_terminal (extract : String → List String)
    (normalizeTL : String → Option ThinkLevel)
    (extractInvalid : String → Option String)
    (resolveKey : Option String → Except String ApiKeyInfo)
    (explicitProfileId : Option String) (candidates : List (Option String))
    (fallbackConfigured : Bool) (initialThinkLevel : ThinkLevel) (now : Int)
    (st : RunState) (obs : AttemptObs) :
    (∀ errTxt, obs.promptError = some errTxt → obs.aborted = false →
      isContextOverflowError (some errTxt) = true →
      classifyAttemptOutcome extract normalizeTL extractInvalid resolveKey
          explicitProfileId candidates fallbackConfigured initialThinkLevel
          now st obs
        = (.terminalOverflow overflowPromptPayloadText, st))
    ∧ (∀ a m, obs.promptError = none → obs.lastAssistant = some a →
      a.stopError = true → a.errorMessage = some m →
      (jsTrim m == "") = false →
      isContextOverflowError (some (jsTrim m)) = true →
      pickFallbackThinkingLevel extract normalizeTL
        (obs.lastAssistant.bind (fun x => x.errorMessage))
        st.attemptedThinking = none →
      isAuthAssistantError obs.lastAssistant = false →
      isRateLimitAssistantError obs.lastAssistant = false →
      obs.timedOut = false →
      classifyAttemptOutcome extract normalizeTL extractInvalid resolveKey
          explicitProfileId candidates fallbackConfigured initialThinkLevel
          now st obs
        = (.finish (some overflowResetText), st)) := by
  constructor
  · intro errTxt hpe hab hov
    unfold classifyAttemptOutcome
    rw [hpe, hab]
    try dsimp only
    rw [if_pos hov]
  · intro a m hpe hla hstop hmsg hne hov hfb hauth hrate htime
    unfold classifyAttemptOutcome
    rw [hpe]
    dsimp only
    unfold assistantPathOutcome
    rw [hfb]
    dsimp only
    have hsr : ((!obs.aborted
        && (isAuthAssistantError obs.lastAssistant
            || isRateLimitAssistantError obs.lastAssistant))
      || obs.timedOut) = false := by
      rw [hauth, hrate, htime]
      simp
    rw [hsr]
    rw [if_neg (by simp : ¬ ((false : Bool) = true))]
    rw [hla]
    have hfmt := formatAssistantErrorText_overflow extractInvalid a m hstop
      hmsg hne hov
    simp [hfmt]

/-- Witness for the amended C6: both branches evaluate on concrete inputs —
a thrown "context length exceeded" prompt error is terminal with the
prompt-path payload, and an assistant "request_too_large" error finishes
with the reset payload, in both cases leaving the state untouched. -/
theorem C6_context_overflow_terminal_witness :
    classifyAttemptOutcome (fun _ => []) (fun _ => none) (fun _ => none)
        resolveKeyC2 none [some "p1", some "p2"] false .off 0
        ⟨storeC2, 0, .off, ∅, some "p1"⟩
        ⟨false, false, some "context length exceeded", none⟩
      = (.terminalOverflow overflowPromptPayloadText,
          ⟨storeC2, 0, .off, ∅, some "p1"⟩)
    ∧ classifyAttemptOutcome (fun _ => []) (fun _ => none) (fun _ => none)
        resolveKeyC2 none [some "p1", some "p2"] false .off 0
        ⟨storeC2, 0, .off, ∅, some "p1"⟩
        ⟨false, false, none, some ⟨true, some "request_too_large"⟩⟩
      = (.finish (some overflowResetText), ⟨storeC2, 0, .off, ∅, some "p1"⟩) :=
  ⟨(C6_context_overflow_terminal (fun _ => []) (fun _ => none) (fun _ => none)
      resolveKeyC2 none [some "p1", some "p2"] false .off 0
      ⟨storeC2, 0, .off, ∅, some "p1"⟩
      ⟨false, false, some "context length exceeded", none⟩).1
      "context length exceeded" rfl rfl (by decide),
    (C6_context_overflow_terminal (fun _ => []) (fun _ => none) (fun _ => none)
      resolveKeyC2 none [some "p1", some "p2"] false .off 0
      ⟨storeC2, 0, .off, ∅, some "p1"⟩
      ⟨false, false, none, some ⟨true, some "request_too_large"⟩⟩).2
      ⟨true, some "request_too_large"⟩ "request_too_large" rfl rfl rfl rfl
      (by decide) (by decide) (by decide) (by decide) (by decide) rfl⟩

/-! ## Claim C7: explicit profile failures are not silently substituted -/

theorem advanceScan_characterisation
    (resolveKey : Option String → Except String ApiKeyInfo)
    (explicitProfileId : Option String) (l : List (Option String)) :
    (∀ k info, advanceScan resolveKey explicitProfileId l = .advanced k info →
      ∃ pfx c rest, l = pfx ++ c :: rest ∧ pfx.length = k
        ∧ resolveKey c = .ok info
        ∧ ∀ d ∈ pfx, (∃ e, resolveKey d = .error e)
            ∧ ¬(isTruthyStr d = true ∧ d = explicitProfileId))
    ∧ (∀ e, advanceScan resolveKey explicitProfileId l = .failedExplicit e →
      ∃ pfx rest, l = pfx ++ explicitProfileId :: rest
        ∧ isTruthyStr explicitProfileId = true
        ∧ resolveKey explicitProfileId = .error e) := by
  induction l with
  | nil =>
    constructor
    · intro k info h
      simp [advanceScan] at h
    · intro e h
      simp [advanceScan] at h
  | cons c rest ih =>
    constructor
    · intro k info h
      unfold advanceScan at h
      cases hres : resolveKey c with
      | ok info2 =>
        rw [hres] at h
        cases h
        exact ⟨[], c, rest, rfl, rfl, hres, by simp⟩
      | error e =>
        rw [hres] at h
        dsimp only at h
        by_cases hexp : (isTruthyStr c && c == explicitProfileId) = true
        · rw [if_pos hexp] at h
          cases h
        · rw [if_neg hexp] at h
          cases hrec : advanceScan resolveKey explicitProfileId rest with
          | exhausted => rw [hrec] at h; cases h
          | failedExplicit e2 => rw [hrec] at h; cases h
          | advanced k2 info2 =>
            rw [hrec] at h
            cases h
            obtain ⟨pfx, c2, rest2, hl, hlen, hok, hall⟩ := ih.1 k2 info hrec
            refine ⟨c :: pfx, c2, rest2, by simp [hl], by simp [hlen], hok, ?_⟩
            intro d hd
            rcases List.mem_cons.mp hd with hd | hd
            · subst hd
              refine ⟨⟨e, hres⟩, ?_⟩
              intro ⟨ht, heq⟩
              apply hexp
              rw [ht, heq]
              simp
            · exact hall d hd
    · intro e h
      unfold advanceScan at h
      cases hres : resolveKey c with
      | ok info2 =>
        rw [hres] at h
        cases h
      | error e2 =>
        rw [hres] at h
        dsimp only at h
        by_cases hexp : (isTruthyStr c && c == explicitProfileId) = true
        · rw [if_pos hexp] at h
          cases h
          obtain ⟨ht, heq2⟩ : isTruthyStr c = true
              ∧ (c == explicitProfileId) = true := by simpa using hexp
          have heq : c = explicitProfileId := eq_of_beq heq2
          subst heq
          exact ⟨[], rest, rfl, ht, hres⟩
        · rw [if_neg hexp] at h
          cases hrec : advanceScan resolveKey explicitProfileId rest with
          | exhausted => rw [hrec] at h; cases h
          | advanced k2 info2 => rw [hrec] at h; cases h
          | failedExplicit e2 =>
            rw [hrec] at h
            cases h
            obtain ⟨pfx, rest2, hl, ht, herr⟩ := ih.2 e hrec
            exact ⟨c :: pfx, rest2, by simp [hl], ht, herr⟩

/-- C7: an explicitly requested auth profile is never silently substituted
during profile selection: (1) an explicit profile absent from the resolved
order fails immediately with the not-configured error; (2) a failure to
resolve the explicit profile's API key when it heads the candidate list
fails immediately with that error; (3) whenever the candidate scan advances
past candidates, every skipped candidate failed resolution and none of them
was the (truthy) explicit profile; (4) a `failedExplicit` outcome arises only
from the explicit profile itself failing resolution. -/
theorem C7_explicit_profile_fail_fast :
    (∀ (resolveKey : Option String → Except String ApiKeyInfo)
       (explicitProfileId : Option String) (profileOrder : List String)
       (provider : String) (initialThinkLevel : ThinkLevel)
       (store : AuthProfileStore),
      isTruthyStr explicitProfileId = true →
      profileOrder.contains (explicitProfileId.getD "") = false →
      selectInitialProfile resolveKey explicitProfileId profileOrder provider
          initialThinkLevel store
        = .error ("Auth profile \"" ++ explicitProfileId.getD ""
            ++ "\" is not configured for " ++ provider ++ "."))
    ∧ (∀ (resolveKey : Option String → Except String ApiKeyInfo)
         (p : String) (restOrder : List String) (provider : String)
         (initialThinkLevel : ThinkLevel) (store : AuthProfileStore)
         (e : String),
      p ≠ "" →
      resolveKey (some p) = .error e →
      selectInitialProfile resolveKey (some p) (p :: restOrder) provider
          initialThinkLevel store = .error e)
    ∧ (∀ (resolveKey : Option String → Except String ApiKeyInfo)
         (explicitProfileId : Option String) (l : List (Option String))
         (k : Nat) (info : ApiKeyInfo),
      advanceScan resolveKey explicitProfileId l = .advanced k info →
      ∃ pfx c rest, l = pfx ++ c :: rest ∧ pfx.length = k
        ∧ resolveKey c = .ok info
        ∧ ∀ d ∈ pfx, (∃ e, resolveKey d = .error e)
            ∧ ¬(isTruthyStr d = true ∧ d = explicitProfileId))
    ∧ (∀ (resolveKey : Option String → Except String ApiKeyInfo)
         (explicitProfileId : Option String) (l : List (Option String))
         (e : String),
      advanceScan resolveKey explicitProfileId l = .failedExplicit e →
      ∃ pfx rest, l = pfx ++ explicitProfileId :: rest
        ∧ isTruthyStr explicitProfileId = true
        ∧ resolveKey explicitProfileId = .error e) := by
  refine ⟨?_, ?_,
    fun resolveKey explicitProfileId l =>
      (advanceScan_characterisation resolveKey explicitProfileId l).1,
    fun resolveKey explicitProfileId l =>
      (advanceScan_characterisation resolveKey explicitProfileId l).2⟩
  · intro resolveKey explicitProfileId profileOrder provider initialThinkLevel
      store h1 h2
    unfold selectInitialProfile
    rw [if_pos (by rw [h1, h2]; rfl)]
  · intro resolveKey p restOrder provider initialThinkLevel store e hp hres
    unfold selectInitialProfile
    rw [if_neg (by simp [isTruthyStr])]
    dsimp only
    rw [if_pos (by simp)]
    simp only [List.map_cons, List.headD_cons]
    rw [hres]
    dsimp only
    rw [if_pos (by simp)]

/-- Witness for C7: an explicit profile missing from the order fails with
the not-configured message, and a failing explicit head candidate propagates
its resolution error. -/
theorem C7_explicit_profile_fail_fast_witness :
    selectInitialProfile (fun _ => .error "other") (some "px") ["a"] "prov"
        .off ⟨1, [], [], []⟩
      = .error "Auth profile \"px\" is not configured for prov."
    ∧ selectInitialProfile
        (fun c => if c == some "p1" then .error "key fail" else .error "other")
        (some "p1") ["p1"] "prov" .off ⟨1, [], [], []⟩
      = .error "key fail" :=
  ⟨C7_explicit_profile_fail_fast.1 (fun _ => .error "other") (some "px")
      ["a"] "prov" .off ⟨1, [], [], []⟩ (by decide) (by decide),
    C7_explicit_profile_fail_fast.2.1
      (fun c => if c == some "p1" then .error "key fail" else .error "other")
      "p1" [] "prov" .off ⟨1, [], [], []⟩ "key fail" (by decide) rfl⟩
